import Mathlib

/-!
Verification development for the AuditTrail multi-model audit service
(`src/app.py`).  The Python program is shallowly embedded: pure string and
numeric logic becomes Lean functions, network calls become parameters, and
Python `float` arithmetic on confidence scores is idealised as exact `ℚ`
arithmetic (`round(x, 1)` becomes exact half-to-even rounding at one
decimal).  The source file is stored in a doubly-encoded form (UTF-8 bytes
were decoded with a legacy codepage and re-encoded), so every box-drawing
character or emoji of the original appears as a short sequence of codepoints;
all string constants below reproduce those codepoint sequences exactly as
they occur in `src/app.py`.
-/

/-! ### Generic Python-style string and number helpers -/

/-- Python `s1 in s2` prefix building block: `seqPre p l` is true when `p`
is a prefix of `l`. -/
def seqPre : List Char → List Char → Bool
  | [], _ => true
  | _ :: _, [] => false
  | a :: as, b :: bs => a == b && seqPre as bs

/-- Python substring test `p in l` on character lists (contiguous occurrence,
the empty string occurs in everything). -/
def containsSeq : List Char → List Char → Bool
  | p, [] => p.isEmpty
  | p, c :: rest => seqPre p (c :: rest) || containsSeq p rest

/-- Python `sub in s` for strings. -/
def pyIn (sub s : String) : Bool := containsSeq sub.data s.data

/-- Concatenation of a list of strings (Python's accumulating `+=` loop). -/
def strConcat (l : List String) : String := l.foldr (· ++ ·) ""

/-- Python `s * n` for a string repeated `n` times. -/
def strRepeat (s : String) (n : Nat) : String := strConcat (List.replicate n s)

/-- Python `sep.join(l)`. -/
def strJoinSep (sep : String) : List String → String
  | [] => ""
  | [x] => x
  | x :: y :: xs => x ++ sep ++ strJoinSep sep (y :: xs)

/-- Python `f"{s:<w>}"` string padding: left-justify to width `w` with
spaces (strings longer than `w` are kept whole). -/
def padRight (s : String) (w : Nat) : String := s ++ strRepeat " " (w - s.length)

/-- Python `int(x)` on a rational: truncation toward zero. -/
def pyTrunc (x : ℚ) : ℤ := Int.tdiv x.num x.den

/-- Python `str.find(c)`: index of the first occurrence, `-1` if absent. -/
def pyFind (s : String) (c : Char) : ℤ :=
  match s.data.findIdx? (fun d => d == c) with
  | some i => (i : ℤ)
  | none => -1

/-- Python `str.rfind(c)`: index of the last occurrence, `-1` if absent. -/
def pyRFind (s : String) (c : Char) : ℤ :=
  match s.data.reverse.findIdx? (fun d => d == c) with
  | some j => (s.data.length : ℤ) - 1 - (j : ℤ)
  | none => -1

/-- Python slice `s[a:b]` for `0 ≤ a` (character indices). -/
def sliceStr (s : String) (a b : ℤ) : String :=
  ⟨(s.data.drop a.toNat).take (b - a).toNat⟩

/-- Python `str.strip()`: remove leading and trailing whitespace. -/
def pyStrip (s : String) : String :=
  ⟨((s.data.dropWhile Char.isWhitespace).reverse.dropWhile Char.isWhitespace).reverse⟩

/-- The character for decimal digit `n % 10`. -/
def digitChar (n : Nat) : Char := Char.ofNat (48 + n % 10)

/-- Decimal digits of a natural number, most significant first
(Python `str(n)` for `n : Nat`). -/
def natDigits (n : Nat) : List Char :=
  if _ : n < 10 then [digitChar n]
  else natDigits (n / 10) ++ [digitChar (n % 10)]
decreasing_by exact Nat.div_lt_self (by omega) (by omega)

/-- Python `str(n)` for a natural number. -/
def natRepr (n : Nat) : String := ⟨natDigits n⟩

/-- Python `str(z)` for an integer. -/
def pyIntRepr (z : ℤ) : String :=
  if z < 0 then "-" ++ natRepr z.natAbs else natRepr z.natAbs

/-- Python `str(x)` as used for JSON-decoded confidence values: exact for
integers (the shape the audit schema requests); non-integral rationals are
shown in fractional notation (Python would show a float repr, a case no
theorem below depends on). -/
def pyNumRepr (q : ℚ) : String :=
  if q.den = 1 then pyIntRepr q.num else pyIntRepr q.num ++ "/" ++ natRepr q.den

/-- Python `str(x)` for the result of `round(x, 1)` (always shown with one
digit after the point, e.g. `58.0`, `0.3`, `-1.5`); exact on multiples of
`1/10`. -/
def pyFloatRepr1 (q : ℚ) : String :=
  let t : ℤ := ⌊q * 10⌋
  (if t < 0 then "-" else "") ++ natRepr (t.natAbs / 10) ++ "." ++ natRepr (t.natAbs % 10)

/-- Round half to even to an integer (the rounding mode of Python's
`round`), idealised over `ℚ`. -/
def roundHalfEven (x : ℚ) : ℤ :=
  let f := ⌊x⌋
  let r := x - (f : ℚ)
  if r < 1/2 then f
  else if (1 : ℚ)/2 < r then f + 1
  else if f % 2 = 0 then f else f + 1

/-- Python `round(x, 1)` idealised over `ℚ`. -/
def pyRound1 (x : ℚ) : ℚ := (roundHalfEven (x * 10) : ℚ) / 10

/-- Python `min(l)` for a list of rationals (raises on `[]` in Python; the
`0` default is never reached in the program, which guards for emptiness). -/
def listMin : List ℚ → ℚ
  | [] => 0
  | x :: xs => xs.foldl min x

/-- Python `max(l)` for a list of rationals (same remark as `listMin`). -/
def listMax : List ℚ → ℚ
  | [] => 0
  | x :: xs => xs.foldl max x

/-! ### Data model

`Audit` is the structured audit payload the program builds from a provider's
JSON reply (`confidence_percentage` plus four free-text fields).
`ProviderResult` is the per-provider dictionary produced by the adapters:
successful results carry `answer` and `audit`, failed ones carry `error`
(`.get` defaults in the Python code correspond to the `Option` fields). -/

structure Audit where
  confidence_percentage : ℚ
  what_might_be_wrong : String
  uncertainty_areas : String
  alternative_interpretation : String
  risk_if_incorrect : String
deriving DecidableEq

structure ProviderResult where
  model : String
  answer : Option String
  audit : Option Audit
  success : Bool
  error : Option String
deriving DecidableEq

/-- `result.get("audit", {}).get("confidence_percentage", 0)` — the
confidence score the program associates with a result (0 when the result
carries no audit, as for failed providers). -/
def result_conf (r : ProviderResult) : ℚ :=
  match r.audit with
  | some a => a.confidence_percentage
  | none => 0

/-- `result.get("audit", {}).get("what_might_be_wrong", "")`. -/
def result_concern (r : ProviderResult) : String :=
  match r.audit with
  | some a => a.what_might_be_wrong
  | none => ""

/-! ### Domain classifier (`detect_domain`, src/app.py lines 47-88) -/

structure DomainInfo where
  domain : String
  risk : String
  emoji : String
deriving DecidableEq

def medical_keywords : List String :=
  ["symptom", "pain", "disease", "diagnosis", "treatment",
   "medicine", "doctor", "health", "sick", "headache",
   "fever", "blood", "cancer", "diabetes", "toe", "burning"]

def legal_keywords : List String :=
  ["law", "legal", "contract", "court", "sue", "lawyer",
   "attorney", "rights", "liable", "deduct", "tax"]

def code_keywords : List String :=
  ["function", "code", "bug", "error", "debug", "compile",
   "programming", "script", "syntax", "loop", "array"]

def math_keywords : List String :=
  ["calculate", "equation", "solve", "formula", "integral",
   "derivative", "theorem", "proof", "mathematics"]

def philosophy_keywords : List String :=
  ["philosophy", "ethics", "moral", "meaning", "existence",
   "consciousness", "free will", "metaphysics"]

def education_keywords : List String :=
  ["learn", "study", "homework", "assignment", "explain",
   "understand", "teach", "lesson", "quiz"]

def finance_keywords : List String :=
  ["invest", "stock", "money", "bitcoin", "crypto",
   "trading", "portfolio", "market", "financial"]

/-- Python `str.lower()` (adequate for the ASCII keyword sets below). -/
def pyLower (s : String) : String := ⟨s.data.map Char.toLower⟩

/-- `any(kw in q_lower for kw in kws)`. -/
def kwAny (q_lower : String) (kws : List String) : Bool :=
  kws.any (fun kw => pyIn kw q_lower)

def emojiMedC : String := "\u011f\u0178\u00a5"
def emojiLegC : String := "\u00e2\u0161\u2013\u00ef\u00b8"
def emojiCodeC : String := "\u011f\u0178\u2019\u00bb"
def emojiMathC : String := "\u011f\u0178\u201d\u00a2"
def emojiPhilC : String := "\u011f\u0178\u00a4\u201d"
def emojiEduC : String := "\u011f\u0178\u201c\u0161"
def emojiFinC : String := "\u011f\u0178\u2019\u00b0"
def emojiGenC : String := "\u011f\u0178\u2019\u00ac"

/-- `detect_domain` — case-insensitive keyword matching, first match in the
fixed order wins, `GENERAL`/`LOW` fallback. -/
def detect_domain (question : String) : DomainInfo :=
  let q_lower := pyLower question
  if kwAny q_lower medical_keywords then ⟨"MEDICAL", "VERY_HIGH", emojiMedC⟩
  else if kwAny q_lower legal_keywords then ⟨"LEGAL", "VERY_HIGH", emojiLegC⟩
  else if kwAny q_lower code_keywords then ⟨"CODE", "MEDIUM", emojiCodeC⟩
  else if kwAny q_lower math_keywords then ⟨"MATHEMATICS", "LOW", emojiMathC⟩
  else if kwAny q_lower philosophy_keywords then ⟨"PHILOSOPHY", "LOW", emojiPhilC⟩
  else if kwAny q_lower education_keywords then ⟨"EDUCATION", "MEDIUM", emojiEduC⟩
  else if kwAny q_lower finance_keywords then ⟨"FINANCE", "HIGH", emojiFinC⟩
  else ⟨"GENERAL", "LOW", emojiGenC⟩

/-! ### Provider adapters (`call_claude`, `call_gemini`)

The two network replies (`answer`, `audit_text`) and the JSON decoder
(`parseJ`, standing for `json.loads` restricted to the audit shape; `none`
models a decode failure/exception) are parameters.  The
configuration-missing branches are not modelled: `multi_model_audit` only
ever invokes configured adapters. -/

/-- The fallback audit payload built when the audit reply cannot be parsed
(confidence pinned at 50, fixed marker text, first 200 characters of the
raw reply). -/
def fallback_audit (audit_text : String) : Audit :=
  { confidence_percentage := 50
    what_might_be_wrong := "Unable to parse structured audit"
    uncertainty_areas := audit_text.take 200
    alternative_interpretation := ""
    risk_if_incorrect := "Unknown" }

/-- `call_claude` (src/app.py lines 165-212), success path: try to parse the
audit reply as JSON, fall back to `fallback_audit` otherwise; either way the
result is a success. -/
def call_claude (answer audit_text : String) (parseJ : String → Option Audit) :
    ProviderResult :=
  match parseJ audit_text with
  | some audit_data => ⟨"Claude", some answer, some audit_data, true, none⟩
  | none => ⟨"Claude", some answer, some (fallback_audit audit_text), true, none⟩

/-- The brace-extraction attempt of `call_gemini`: take the substring from
the first `{` to the last `}` and parse it; `none` when no such substring
exists or parsing fails. -/
def geminiExtract (audit_text : String) (parseJ : String → Option Audit) :
    Option Audit :=
  let start := pyFind audit_text (Char.ofNat 123)
  let stop := pyRFind audit_text (Char.ofNat 125) + 1
  if 0 ≤ start ∧ start < stop then parseJ (sliceStr audit_text start stop)
  else none

/-- `call_gemini` (src/app.py lines 214-257), success path. -/
def call_gemini (answer audit_text : String) (parseJ : String → Option Audit) :
    ProviderResult :=
  match geminiExtract audit_text parseJ with
  | some audit_data => ⟨"Gemini", some answer, some audit_data, true, none⟩
  | none => ⟨"Gemini", some answer, some (fallback_audit audit_text), true, none⟩

/-! ### Consensus reducer (`multi_model_audit`, src/app.py lines 259-301) -/

structure Consensus where
  average_confidence : ℚ
  min_confidence : ℚ
  max_confidence : ℚ
  confidence_spread : ℚ
  agreement_level : String
deriving DecidableEq

/-- The agreement-tier expression of line 289:
`"HIGH" if spread < 20 else "MODERATE" if spread < 40 else "LOW"`. -/
def agreement_level_of (confidence_spread : ℚ) : String :=
  if confidence_spread < 20 then "HIGH"
  else if confidence_spread < 40 then "MODERATE"
  else "LOW"

/-- The three dictionary shapes `multi_model_audit` returns:
`noKeys` is `{"error": "No API keys configured"}` (no `results` key),
`allFailed` is `{"error": "All models failed", "results": results}`, and
`ok` is the success dictionary with `models_used`, `results` (successful
only) and `consensus`. -/
inductive AuditOutcome where
  | noKeys : AuditOutcome
  | allFailed (results : List ProviderResult) : AuditOutcome
  | ok (models_used : List String) (results : List ProviderResult)
      (consensus : Consensus) : AuditOutcome
deriving DecidableEq

/-- `multi_model_audit` over the gathered adapter results (the list is in
adapter order; an empty list corresponds to `if not tasks`).  The source
reads `r["audit"]["confidence_percentage"]` on successes, which always carry
an audit; `result_conf` is that access with the renderer's `.get` default. -/
def multi_model_audit (results : List ProviderResult) : AuditOutcome :=
  if results.isEmpty then .noKeys
  else
    let successful_results := results.filter (fun r => r.success)
    if successful_results.isEmpty then .allFailed results
    else
      let confidences := successful_results.map result_conf
      let avg_confidence := confidences.sum / (confidences.length : ℚ)
      let min_confidence := listMin confidences
      let max_confidence := listMax confidences
      let confidence_spread := max_confidence - min_confidence
      .ok (successful_results.map (fun r => r.model)) successful_results
        { average_confidence := pyRound1 avg_confidence
          min_confidence := min_confidence
          max_confidence := max_confidence
          confidence_spread := confidence_spread
          agreement_level := agreement_level_of confidence_spread }

/-! ### Report renderer (`format_multi_model_report`, src/app.py 306-485)

String constants are taken verbatim from the source file, split at newline
boundaries; the renderer below concatenates them back with the `ln` helper
(`ln s = s ++ "\n"`), so its output is character-for-character the string
the Python code builds. -/

/-- `s ++ "\n"`: one output line of the report. -/
def ln (s : String) : String := s ++ "\n"

def eq70 : String := strRepeat "=" 70
def hdrMidC : String := " AUDITTRAIL MULTI-MODEL TRANSPARENCY REPORT "
def respHdrC : String := ">>> \u011f\u0178\u00a4\u2013 MULTI-MODEL RESPONSES:"
def ansHeadA : String := "\u00e2\u201d\u0152\u00e2\u201d\u20ac "
def ansHeadB : String := " RESPONSE \u00e2\u201d\u20ac\u00e2\u201d\u20ac\u00e2\u201d\u20ac\u00e2\u201d\u20ac\u00e2\u201d\u20ac\u00e2\u201d\u20ac\u00e2\u201d\u20ac\u00e2\u201d\u20ac\u00e2\u201d\u20ac\u00e2\u201d\u20ac\u00e2\u201d\u20ac\u00e2\u201d\u20ac\u00e2\u201d\u20ac\u00e2\u201d\u20ac\u00e2\u201d\u20ac\u00e2\u201d\u20ac\u00e2\u201d\u20ac\u00e2\u201d\u20ac\u00e2\u201d\u20ac\u00e2\u201d\u20ac\u00e2\u201d\u20ac\u00e2\u201d\u20ac\u00e2\u201d\u20ac\u00e2\u201d\u20ac\u00e2\u201d\u20ac\u00e2\u201d\u20ac\u00e2\u201d\u20ac\u00e2\u201d\u20ac\u00e2\u201d\u20ac\u00e2\u201d\u20ac\u00e2\u201d\u20ac\u00e2\u201d\u20ac\u00e2\u201d\u20ac\u00e2\u201d\u20ac\u00e2\u201d\u20ac\u00e2\u201d\u20ac\u00e2\u201d\u20ac\u00e2\u201d\u20ac\u00e2\u201d\u20ac\u00e2\u201d"
def rowH : String := "\u00e2\u201d\u201a "
def ansFootC : String := "\u00e2\u201d\u201d\u00e2\u201d\u20ac\u00e2\u201d\u20ac\u00e2\u201d\u20ac\u00e2\u201d\u20ac\u00e2\u201d\u20ac\u00e2\u201d\u20ac\u00e2\u201d\u20ac\u00e2\u201d\u20ac\u00e2\u201d\u20ac\u00e2\u201d\u20ac\u00e2\u201d\u20ac\u00e2\u201d\u20ac\u00e2\u201d\u20ac\u00e2\u201d\u20ac\u00e2\u201d\u20ac\u00e2\u201d\u20ac\u00e2\u201d\u20ac\u00e2\u201d\u20ac\u00e2\u201d\u20ac\u00e2\u201d\u20ac\u00e2\u201d\u20ac\u00e2\u201d\u20ac\u00e2\u201d\u20ac\u00e2\u201d\u20ac\u00e2\u201d\u20ac\u00e2\u201d\u20ac\u00e2\u201d\u20ac\u00e2\u201d\u20ac\u00e2\u201d\u20ac\u00e2\u201d\u20ac\u00e2\u201d\u20ac\u00e2\u201d\u20ac\u00e2\u201d\u20ac\u00e2\u201d\u20ac\u00e2\u201d\u20ac\u00e2\u201d\u20ac\u00e2\u201d\u20ac\u00e2\u201d\u20ac\u00e2\u201d\u20ac\u00e2\u201d\u20ac\u00e2\u201d\u20ac\u00e2\u201d\u20ac\u00e2\u201d\u20ac\u00e2\u201d\u20ac\u00e2\u201d\u20ac\u00e2\u201d\u20ac\u00e2\u201d\u20ac\u00e2\u201d\u20ac\u00e2\u201d\u20ac\u00e2\u201d\u20ac\u00e2\u201d\u20ac\u00e2\u201d\u20ac\u00e2\u201d\u20ac\u00e2\u201d\u20ac\u00e2\u201d\u20ac\u00e2\u201d\u20ac\u00e2\u201d\u20ac\u00e2\u201d\u20ac\u00e2\u201d\u20ac\u00e2\u201d\u20ac\u00e2\u201d\u20ac\u00e2\u201d\u20ac\u00e2\u201d\u20ac\u00e2\u201d\u20ac\u00e2\u201d\u02dc"
def analysisHdrC : String := ">>> \u011f\u0178\u201c\u0160 CROSS-MODEL CONFIDENCE ANALYSIS:"
def consHeadC : String := "\u00e2\u201d\u0152\u00e2\u201d\u20ac CONSENSUS CONFIDENCE \u00e2\u201d\u20ac\u00e2\u201d\u20ac\u00e2\u201d\u20ac\u00e2\u201d\u20ac\u00e2\u201d\u20ac\u00e2\u201d\u20ac\u00e2\u201d\u20ac\u00e2\u201d\u20ac\u00e2\u201d\u20ac\u00e2\u201d\u20ac\u00e2\u201d\u20ac\u00e2\u201d\u20ac\u00e2\u201d\u20ac\u00e2\u201d\u20ac\u00e2\u201d\u20ac\u00e2\u201d\u20ac\u00e2\u201d\u20ac\u00e2\u201d\u20ac\u00e2\u201d\u20ac\u00e2\u201d\u20ac\u00e2\u201d\u20ac\u00e2\u201d\u20ac\u00e2\u201d\u20ac\u00e2\u201d\u20ac\u00e2\u201d\u20ac\u00e2\u201d\u20ac\u00e2\u201d\u20ac\u00e2\u201d\u20ac\u00e2\u201d\u20ac\u00e2\u201d\u20ac\u00e2\u201d\u20ac\u00e2\u201d\u20ac\u00e2\u201d\u20ac\u00e2\u201d\u20ac\u00e2\u201d\u20ac\u00e2\u201d\u20ac\u00e2\u201d\u20ac\u00e2\u201d"
def avgPreC : String := "\u00e2\u201d\u201a Average Confidence: "
def rangePreC : String := "\u00e2\u201d\u201a Range: "
def agreePreC : String := "\u00e2\u201d\u201a Model Agreement: "
def ccHighC : String := "\u00e2\u201d\u201a \u00e2\u0153\u201c\u00e2\u0153\u201c\u00e2\u0153\u201c HIGH CONSENSUS - Models strongly agree"
def ccModC : String := "\u00e2\u201d\u201a \u00e2\u0161\u00a0 MODERATE CONSENSUS - Some uncertainty present"
def ccLowC : String := "\u00e2\u201d\u201a \u011f\u0178\u0161\u00a8 LOW CONSENSUS - High uncertainty, verify carefully"
def warnAC : String := "\u00e2\u201d\u201a \u00e2\u0161\u00a0\u00ef\u00b8 MAJOR DISAGREEMENT: "
def warnBC : String := "% confidence spread between models!"
def boxFootC : String := "\u00e2\u201d\u201d\u00e2\u201d\u20ac\u00e2\u201d\u20ac\u00e2\u201d\u20ac\u00e2\u201d\u20ac\u00e2\u201d\u20ac\u00e2\u201d\u20ac\u00e2\u201d\u20ac\u00e2\u201d\u20ac\u00e2\u201d\u20ac\u00e2\u201d\u20ac\u00e2\u201d\u20ac\u00e2\u201d\u20ac\u00e2\u201d\u20ac\u00e2\u201d\u20ac\u00e2\u201d\u20ac\u00e2\u201d\u20ac\u00e2\u201d\u20ac\u00e2\u201d\u20ac\u00e2\u201d\u20ac\u00e2\u201d\u20ac\u00e2\u201d\u20ac\u00e2\u201d\u20ac\u00e2\u201d\u20ac\u00e2\u201d\u20ac\u00e2\u201d\u20ac\u00e2\u201d\u20ac\u00e2\u201d\u20ac\u00e2\u201d\u20ac\u00e2\u201d\u20ac\u00e2\u201d\u20ac\u00e2\u201d\u20ac\u00e2\u201d\u20ac\u00e2\u201d\u20ac\u00e2\u201d\u20ac\u00e2\u201d\u20ac\u00e2\u201d\u20ac\u00e2\u201d\u20ac\u00e2\u201d\u20ac\u00e2\u201d\u20ac\u00e2\u201d\u20ac\u00e2\u201d\u20ac\u00e2\u201d\u20ac\u00e2\u201d\u20ac\u00e2\u201d\u20ac\u00e2\u201d\u20ac\u00e2\u201d\u20ac\u00e2\u201d\u20ac\u00e2\u201d\u20ac\u00e2\u201d\u20ac\u00e2\u201d\u20ac\u00e2\u201d\u20ac\u00e2\u201d\u20ac\u00e2\u201d\u20ac\u00e2\u201d\u20ac\u00e2\u201d\u20ac\u00e2\u201d\u20ac\u00e2\u201d\u20ac\u00e2\u201d\u20ac\u00e2\u201d\u20ac\u00e2\u201d\u20ac\u00e2\u201d\u02dc"
def tabHeadC : String := "\u00e2\u201d\u0152\u00e2\u201d\u20ac INDIVIDUAL MODEL CONFIDENCE SCORES \u00e2\u201d\u20ac\u00e2\u201d\u20ac\u00e2\u201d\u20ac\u00e2\u201d\u20ac\u00e2\u201d\u20ac\u00e2\u201d\u20ac\u00e2\u201d\u20ac\u00e2\u201d\u20ac\u00e2\u201d\u20ac\u00e2\u201d\u20ac\u00e2\u201d\u20ac\u00e2\u201d\u20ac\u00e2\u201d\u20ac\u00e2\u201d\u20ac\u00e2\u201d\u20ac\u00e2\u201d\u20ac\u00e2\u201d\u20ac\u00e2\u201d\u20ac\u00e2\u201d\u20ac\u00e2\u201d\u20ac\u00e2\u201d\u20ac\u00e2\u201d\u20ac\u00e2\u201d\u20ac\u00e2\u201d"
def sepS : String := " \u00e2\u201d\u201a "
def barFullC : String := "\u00e2\u2013\u02c6"
def barEmptyC : String := "\u00e2\u2013\u2018"
def aggHeadC : String := "\u00e2\u201d\u0152\u00e2\u201d\u20ac AGGREGATED AUDIT ANALYSIS \u00e2\u201d\u20ac\u00e2\u201d\u20ac\u00e2\u201d\u20ac\u00e2\u201d\u20ac\u00e2\u201d\u20ac\u00e2\u201d\u20ac\u00e2\u201d\u20ac\u00e2\u201d\u20ac\u00e2\u201d\u20ac\u00e2\u201d\u20ac\u00e2\u201d\u20ac\u00e2\u201d\u20ac\u00e2\u201d\u20ac\u00e2\u201d\u20ac\u00e2\u201d\u20ac\u00e2\u201d\u20ac\u00e2\u201d\u20ac\u00e2\u201d\u20ac\u00e2\u201d\u20ac\u00e2\u201d\u20ac\u00e2\u201d\u20ac\u00e2\u201d\u20ac\u00e2\u201d\u20ac\u00e2\u201d\u20ac\u00e2\u201d\u20ac\u00e2\u201d\u20ac\u00e2\u201d\u20ac\u00e2\u201d\u20ac\u00e2\u201d\u20ac\u00e2\u201d\u20ac\u00e2\u201d\u20ac\u00e2\u201d\u20ac\u00e2\u201d"
def concernsHdrC : String := "\u00e2\u201d\u201a COMMON CONCERNS ACROSS MODELS:"
def detHeadAC : String := "\u00e2\u201d\u0152\u00e2\u201d\u20ac DETAILED ANALYSIS (from "
def detHeadBC : String := ") \u00e2\u201d\u20ac\u00e2\u201d\u20ac\u00e2\u201d\u20ac\u00e2\u201d\u20ac\u00e2\u201d\u20ac\u00e2\u201d\u20ac\u00e2\u201d\u20ac\u00e2\u201d\u20ac\u00e2\u201d\u20ac\u00e2\u201d\u20ac\u00e2\u201d\u20ac\u00e2\u201d\u20ac\u00e2\u201d\u20ac\u00e2\u201d\u20ac\u00e2\u201d\u20ac\u00e2\u201d\u20ac\u00e2\u201d\u20ac\u00e2\u201d\u20ac\u00e2\u201d"
def medL1 : String := "\u00e2\u201d\u0152\u00e2\u201d\u20ac \u00e2\u0161\u00a0\u00ef\u00b8 MEDICAL DISCLAIMER \u00e2\u201d\u20ac\u00e2\u201d\u20ac\u00e2\u201d\u20ac\u00e2\u201d\u20ac\u00e2\u201d\u20ac\u00e2\u201d\u20ac\u00e2\u201d\u20ac\u00e2\u201d\u20ac\u00e2\u201d\u20ac\u00e2\u201d\u20ac\u00e2\u201d\u20ac\u00e2\u201d\u20ac\u00e2\u201d\u20ac\u00e2\u201d\u20ac\u00e2\u201d\u20ac\u00e2\u201d\u20ac\u00e2\u201d\u20ac\u00e2\u201d\u20ac\u00e2\u201d\u20ac\u00e2\u201d\u20ac\u00e2\u201d\u20ac\u00e2\u201d\u20ac\u00e2\u201d\u20ac\u00e2\u201d\u20ac\u00e2\u201d\u20ac\u00e2\u201d\u20ac\u00e2\u201d\u20ac\u00e2\u201d\u20ac\u00e2\u201d\u20ac\u00e2\u201d\u20ac\u00e2\u201d\u20ac\u00e2\u201d\u20ac\u00e2\u201d\u20ac\u00e2\u201d\u20ac\u00e2\u201d\u20ac\u00e2\u201d\u20ac\u00e2\u201d\u20ac\u00e2\u201d"
def medL2 : String := "\u00e2\u201d\u201a \u011f\u0178\u0161\u00a8 This is NOT medical advice from any model               \u00e2\u201d\u201a"
def medL3 : String := "\u00e2\u201d\u201a \u011f\u0178\u0161\u00a8 AI cannot diagnose conditions reliably                  \u00e2\u201d\u201a"
def medL4 : String := "\u00e2\u201d\u201a \u011f\u0178\u0161\u00a8 See a licensed healthcare professional immediately      \u00e2\u201d\u201a"
def medL5 : String := "\u00e2\u201d\u201a \u011f\u0178\u0161\u00a8 For emergencies, call your local emergency number       \u00e2\u201d\u201a"
def medL6 : String := "\u00e2\u201d\u201d\u00e2\u201d\u20ac\u00e2\u201d\u20ac\u00e2\u201d\u20ac\u00e2\u201d\u20ac\u00e2\u201d\u20ac\u00e2\u201d\u20ac\u00e2\u201d\u20ac\u00e2\u201d\u20ac\u00e2\u201d\u20ac\u00e2\u201d\u20ac\u00e2\u201d\u20ac\u00e2\u201d\u20ac\u00e2\u201d\u20ac\u00e2\u201d\u20ac\u00e2\u201d\u20ac\u00e2\u201d\u20ac\u00e2\u201d\u20ac\u00e2\u201d\u20ac\u00e2\u201d\u20ac\u00e2\u201d\u20ac\u00e2\u201d\u20ac\u00e2\u201d\u20ac\u00e2\u201d\u20ac\u00e2\u201d\u20ac\u00e2\u201d\u20ac\u00e2\u201d\u20ac\u00e2\u201d\u20ac\u00e2\u201d\u20ac\u00e2\u201d\u20ac\u00e2\u201d\u20ac\u00e2\u201d\u20ac\u00e2\u201d\u20ac\u00e2\u201d\u20ac\u00e2\u201d\u20ac\u00e2\u201d\u20ac\u00e2\u201d\u20ac\u00e2\u201d\u20ac\u00e2\u201d\u20ac\u00e2\u201d\u20ac\u00e2\u201d\u20ac\u00e2\u201d\u20ac\u00e2\u201d\u20ac\u00e2\u201d\u20ac\u00e2\u201d\u20ac\u00e2\u201d\u20ac\u00e2\u201d\u20ac\u00e2\u201d\u20ac\u00e2\u201d\u20ac\u00e2\u201d\u20ac\u00e2\u201d\u20ac\u00e2\u201d\u20ac\u00e2\u201d\u20ac\u00e2\u201d\u20ac\u00e2\u201d\u20ac\u00e2\u201d\u20ac\u00e2\u201d\u20ac\u00e2\u201d\u20ac\u00e2\u201d\u20ac\u00e2\u201d\u20ac\u00e2\u201d\u20ac\u00e2\u201d\u02dc"
def legL1 : String := "\u00e2\u201d\u0152\u00e2\u201d\u20ac \u00e2\u0161\u00a0\u00ef\u00b8 LEGAL DISCLAIMER \u00e2\u201d\u20ac\u00e2\u201d\u20ac\u00e2\u201d\u20ac\u00e2\u201d\u20ac\u00e2\u201d\u20ac\u00e2\u201d\u20ac\u00e2\u201d\u20ac\u00e2\u201d\u20ac\u00e2\u201d\u20ac\u00e2\u201d\u20ac\u00e2\u201d\u20ac\u00e2\u201d\u20ac\u00e2\u201d\u20ac\u00e2\u201d\u20ac\u00e2\u201d\u20ac\u00e2\u201d\u20ac\u00e2\u201d\u20ac\u00e2\u201d\u20ac\u00e2\u201d\u20ac\u00e2\u201d\u20ac\u00e2\u201d\u20ac\u00e2\u201d\u20ac\u00e2\u201d\u20ac\u00e2\u201d\u20ac\u00e2\u201d\u20ac\u00e2\u201d\u20ac\u00e2\u201d\u20ac\u00e2\u201d\u20ac\u00e2\u201d\u20ac\u00e2\u201d\u20ac\u00e2\u201d\u20ac\u00e2\u201d\u20ac\u00e2\u201d\u20ac\u00e2\u201d\u20ac\u00e2\u201d\u20ac\u00e2\u201d\u20ac\u00e2\u201d\u20ac\u00e2\u201d\u20ac\u00e2\u201d\u20ac\u00e2\u201d"
def legL2 : String := "\u00e2\u201d\u201a \u011f\u0178\u0161\u00a8 This is NOT legal advice from any model                 \u00e2\u201d\u201a"
def legL3 : String := "\u00e2\u201d\u201a \u011f\u0178\u0161\u00a8 AI cannot replace a licensed attorney                   \u00e2\u201d\u201a"
def legL4 : String := "\u00e2\u201d\u201a \u011f\u0178\u0161\u00a8 Laws vary by jurisdiction and change frequently         \u00e2\u201d\u201a"
def legL5 : String := "\u00e2\u201d\u201a \u011f\u0178\u0161\u00a8 Consult a qualified lawyer for your specific situation  \u00e2\u201d\u201a"
def legL6 : String := "\u00e2\u201d\u201d\u00e2\u201d\u20ac\u00e2\u201d\u20ac\u00e2\u201d\u20ac\u00e2\u201d\u20ac\u00e2\u201d\u20ac\u00e2\u201d\u20ac\u00e2\u201d\u20ac\u00e2\u201d\u20ac\u00e2\u201d\u20ac\u00e2\u201d\u20ac\u00e2\u201d\u20ac\u00e2\u201d\u20ac\u00e2\u201d\u20ac\u00e2\u201d\u20ac\u00e2\u201d\u20ac\u00e2\u201d\u20ac\u00e2\u201d\u20ac\u00e2\u201d\u20ac\u00e2\u201d\u20ac\u00e2\u201d\u20ac\u00e2\u201d\u20ac\u00e2\u201d\u20ac\u00e2\u201d\u20ac\u00e2\u201d\u20ac\u00e2\u201d\u20ac\u00e2\u201d\u20ac\u00e2\u201d\u20ac\u00e2\u201d\u20ac\u00e2\u201d\u20ac\u00e2\u201d\u20ac\u00e2\u201d\u20ac\u00e2\u201d\u20ac\u00e2\u201d\u20ac\u00e2\u201d\u20ac\u00e2\u201d\u20ac\u00e2\u201d\u20ac\u00e2\u201d\u20ac\u00e2\u201d\u20ac\u00e2\u201d\u20ac\u00e2\u201d\u20ac\u00e2\u201d\u20ac\u00e2\u201d\u20ac\u00e2\u201d\u20ac\u00e2\u201d\u20ac\u00e2\u201d\u20ac\u00e2\u201d\u20ac\u00e2\u201d\u20ac\u00e2\u201d\u20ac\u00e2\u201d\u20ac\u00e2\u201d\u20ac\u00e2\u201d\u20ac\u00e2\u201d\u20ac\u00e2\u201d\u20ac\u00e2\u201d\u20ac\u00e2\u201d\u20ac\u00e2\u201d\u20ac\u00e2\u201d\u20ac\u00e2\u201d\u20ac\u00e2\u201d\u20ac\u00e2\u201d\u20ac\u00e2\u201d\u02dc"
def recHeadC : String := "\u00e2\u201d\u0152\u00e2\u201d\u20ac RECOMMENDED ACTIONS \u00e2\u201d\u20ac\u00e2\u201d\u20ac\u00e2\u201d\u20ac\u00e2\u201d\u20ac\u00e2\u201d\u20ac\u00e2\u201d\u20ac\u00e2\u201d\u20ac\u00e2\u201d\u20ac\u00e2\u201d\u20ac\u00e2\u201d\u20ac\u00e2\u201d\u20ac\u00e2\u201d\u20ac\u00e2\u201d\u20ac\u00e2\u201d\u20ac\u00e2\u201d\u20ac\u00e2\u201d\u20ac\u00e2\u201d\u20ac\u00e2\u201d\u20ac\u00e2\u201d\u20ac\u00e2\u201d\u20ac\u00e2\u201d\u20ac\u00e2\u201d\u20ac\u00e2\u201d\u20ac\u00e2\u201d\u20ac\u00e2\u201d\u20ac\u00e2\u201d\u20ac\u00e2\u201d\u20ac\u00e2\u201d\u20ac\u00e2\u201d\u20ac\u00e2\u201d\u20ac\u00e2\u201d\u20ac\u00e2\u201d\u20ac\u00e2\u201d\u20ac\u00e2\u201d\u20ac\u00e2\u201d\u20ac\u00e2\u201d\u20ac\u00e2\u201d\u20ac\u00e2\u201d\u20ac\u00e2\u201d"
def recLowC1 : String := "\u00e2\u201d\u201a \u011f\u0178\u201d\u00b4 LOW CONFIDENCE / POOR AGREEMENT DETECTED                \u00e2\u201d\u201a"
def recLowC2 : String := "\u00e2\u201d\u201a \u00e2\u2020\u2019 DO NOT act on this information alone                    \u00e2\u201d\u201a"
def recLowC3 : String := "\u00e2\u201d\u201a \u00e2\u2020\u2019 Consult human experts immediately                       \u00e2\u201d\u201a"
def recLowC4 : String := "\u00e2\u201d\u201a \u00e2\u2020\u2019 Models disagree significantly - high uncertainty         \u00e2\u201d\u201a"
def recModC1 : String := "\u00e2\u201d\u201a \u011f\u0178\u0178\u00a1 MODERATE CONFIDENCE - PROCEED WITH CAUTION              \u00e2\u201d\u201a"
def recModC2 : String := "\u00e2\u201d\u201a \u00e2\u2020\u2019 Verify critical details before acting                   \u00e2\u201d\u201a"
def recModC3 : String := "\u00e2\u201d\u201a \u00e2\u2020\u2019 Cross-reference with authoritative sources              \u00e2\u201d\u201a"
def recModC4 : String := "\u00e2\u201d\u201a \u00e2\u2020\u2019 Consider professional consultation                      \u00e2\u201d\u201a"
def recHighC1 : String := "\u00e2\u201d\u201a \u011f\u0178\u0178\u00a2 HIGH CONFIDENCE - Models show strong agreement          \u00e2\u201d\u201a"
def recHighC2 : String := "\u00e2\u201d\u201a \u00e2\u2020\u2019 Information appears relatively reliable                 \u00e2\u201d\u201a"
def recHighC3 : String := "\u00e2\u201d\u201a \u00e2\u2020\u2019 Still verify important claims                           \u00e2\u201d\u201a"
def recHighC4 : String := "\u00e2\u201d\u201a \u00e2\u2020\u2019 Use critical thinking when applying                     \u00e2\u201d\u201a"
def spreadWarnC1 : String := "\u00e2\u201d\u201a                                                            \u00e2\u201d\u201a"
def spreadWarnC2 : String := "\u00e2\u201d\u201a \u00e2\u0161\u00a0\u00ef\u00b8 WARNING: Large confidence spread between models         \u00e2\u201d\u201a"
def spreadWarnC3 : String := "\u00e2\u201d\u201a This suggests fundamental uncertainty about the answer    \u00e2\u201d\u201a"
def genByC : String := "Generated by AuditTrail v8.0 - Multi-Model AI Transparency"
def riskVHC : String := "\u011f\u0178\u201d\u00b4\u011f\u0178\u201d\u00b4\u011f\u0178\u201d\u00b4 CRITICAL - VERIFY WITH PROFESSIONAL"
def riskHC : String := "\u011f\u0178\u201d\u00b4\u011f\u0178\u201d\u00b4 HIGH - DOUBLE CHECK BEFORE ACTING"
def riskMC : String := "\u011f\u0178\u0178\u00a1 MEDIUM - REVIEW CAREFULLY"
def riskLC : String := "\u011f\u0178\u0178\u00a2 LOW - GENERALLY SAFE"

/-- The `risk_indicator.get(risk, risk)` lookup of the renderer. -/
def risk_indicator_get (risk : String) : String :=
  if risk = "VERY_HIGH" then riskVHC
  else if risk = "HIGH" then riskHC
  else if risk = "MEDIUM" then riskMC
  else if risk = "LOW" then riskLC
  else risk

/-- The renderer's input: the `multi_model_data` dictionary with its
optional keys (`.get("models_used", [])`, `.get("results", [])`,
`.get("consensus", {})`). -/
structure MultiModelData where
  models_used : List String
  results : List ProviderResult
  consensus : Option Consensus
deriving DecidableEq

/-- One iteration of the per-model answer loop (lines 340-347). -/
def answer_block (r : ProviderResult) : String :=
  let answer := r.answer.getD "No response"
  ln "" ++ ln (ansHeadA ++ r.model ++ ansHeadB) ++
  ln (rowH ++ answer.take 400 ++ (if answer.length > 400 then "..." else "")) ++
  ln ansFootC

/-- One row of the individual-confidence table (lines 380-385). -/
def conf_row (r : ProviderResult) : String :=
  let conf := result_conf r
  let bar_length : ℤ := pyTrunc (conf / 5)
  let bar := strRepeat barFullC bar_length.toNat ++
    strRepeat barEmptyC (20 - bar_length).toNat
  ln (rowH ++ padRight r.model 12 ++ sepS ++ bar ++ sepS ++ pyNumRepr conf ++ "%")

/-- The deduplicating concern collection loop (lines 392-396). -/
def concerns_of (results : List ProviderResult) : List String :=
  results.foldl
    (fun concerns r =>
      let concern := result_concern r
      if concern ≠ "" ∧ concern ∉ concerns then concerns ++ [concern] else concerns)
    []

/-- `max(results, key=lambda r: ...confidence...)` (line 406).  Python `max`
keeps the first maximal element and raises on `[]`; the junk default result
is unreachable in the program, which always passes a non-empty list. -/
def best_result_of (results : List ProviderResult) : ProviderResult :=
  match results with
  | [] => ⟨"", none, none, false, none⟩
  | x :: xs => xs.foldl (fun b a => if result_conf a > result_conf b then a else b) x

/-- `audit.get(field, 'N/A')` for the detailed-analysis section. -/
def audit_field (r : ProviderResult) (f : Audit → String) : String :=
  match r.audit with
  | some a => f a
  | none => "N/A"

/-- One concern line `│ {i}. {concern[:60]}...` (enumerate starts at 1). -/
def concern_line (p : Nat × String) : String :=
  ln (rowH ++ pyIntRepr ((p.1 : ℤ) + 1) ++ ". " ++ p.2.take 60 ++ "...")

/-- `format_multi_model_report` (src/app.py lines 306-485).  Output is
character-identical to the Python string: the multi-line f-string literals
are split here at newline boundaries and reassembled with `ln`. -/
def format_multi_model_report (question : String) (multi_model_data : MultiModelData)
    (domain_info : DomainInfo) : String :=
  let domain := domain_info.domain
  let risk := domain_info.risk
  let emoji := domain_info.emoji
  let consensus := multi_model_data.consensus
  let results := multi_model_data.results
  let models_joined := strJoinSep ", " multi_model_data.models_used
  let avg_conf : ℚ := (consensus.map Consensus.average_confidence).getD 0
  let min_conf : ℚ := (consensus.map Consensus.min_confidence).getD 0
  let max_conf : ℚ := (consensus.map Consensus.max_confidence).getD 0
  let spread : ℚ := (consensus.map Consensus.confidence_spread).getD 0
  let agreement := (consensus.map Consensus.agreement_level).getD "UNKNOWN"
  let avgDisp := (consensus.map (fun c => pyFloatRepr1 c.average_confidence)).getD
    (pyNumRepr 0)
  let best_result := best_result_of results
  ln "" ++ ln eq70 ++ ln ("     " ++ emoji ++ hdrMidC ++ emoji) ++ ln eq70 ++
  ln "" ++ ln ("DOMAIN DETECTED: " ++ domain) ++
  ln ("RISK LEVEL: " ++ risk_indicator_get risk) ++
  ln ("MODELS ANALYZED: " ++ models_joined) ++
  ln "" ++ ln eq70 ++ ln ">>> YOUR QUESTION:" ++ ln question ++
  ln "" ++ ln eq70 ++ ln respHdrC ++ ln "" ++
  strConcat (results.map answer_block) ++
  ln "" ++ ln eq70 ++ ln analysisHdrC ++ ln "" ++ ln consHeadC ++
  ln (avgPreC ++ avgDisp ++ "%") ++
  ln (rangePreC ++ pyNumRepr min_conf ++ "% - " ++ pyNumRepr max_conf ++
    "% (spread: " ++ pyNumRepr spread ++ "%)") ++
  ln (agreePreC ++ agreement) ++
  (if avg_conf ≥ 80 then ln ccHighC
   else if avg_conf ≥ 50 then ln ccModC
   else ln ccLowC) ++
  (if spread > 30 then ln (warnAC ++ pyNumRepr spread ++ warnBC) else "") ++
  ln boxFootC ++ ln "" ++
  ln tabHeadC ++ strConcat (results.map conf_row) ++ ln boxFootC ++ ln "" ++
  ln aggHeadC ++
  (if concerns_of results ≠ [] then
    ln concernsHdrC ++ strConcat (((concerns_of results).take 3).enum.map concern_line)
   else "") ++
  ln boxFootC ++ ln "" ++
  ln "" ++ ln (detHeadAC ++ best_result.model ++ detHeadBC) ++ ln "" ++
  ln "[ What Might Be Wrong ]" ++ ln (audit_field best_result Audit.what_might_be_wrong) ++
  ln "" ++ ln "[ Missing Information ]" ++ ln (audit_field best_result Audit.uncertainty_areas) ++
  ln "" ++ ln "[ Alternative Interpretations ]" ++
  ln (audit_field best_result Audit.alternative_interpretation) ++
  ln "" ++ ln "[ Risk If Incorrect ]" ++ ln (audit_field best_result Audit.risk_if_incorrect) ++
  ln boxFootC ++ ln "" ++
  (if domain = "MEDICAL" then
    ln "" ++ ln medL1 ++ ln medL2 ++ ln medL3 ++ ln medL4 ++ ln medL5 ++ ln medL6
   else if domain = "LEGAL" then
    ln "" ++ ln legL1 ++ ln legL2 ++ ln legL3 ++ ln legL4 ++ ln legL5 ++ ln legL6
   else "") ++
  ln "" ++ ln recHeadC ++
  (if avg_conf < 50 ∨ agreement = "LOW" then
    ln recLowC1 ++ ln recLowC2 ++ ln recLowC3 ++ ln recLowC4
   else if avg_conf < 70 then
    ln recModC1 ++ ln recModC2 ++ ln recModC3 ++ ln recModC4
   else
    ln recHighC1 ++ ln recHighC2 ++ ln recHighC3 ++ ln recHighC4) ++
  (if spread > 30 then ln spreadWarnC1 ++ ln spreadWarnC2 ++ ln spreadWarnC3 else "") ++
  ln boxFootC ++ ln "" ++
  ln eq70 ++ ln genByC ++ ln ("Powered by: " ++ models_joined) ++ ln eq70

/-! ### HTTP endpoint (`audit_question`, src/app.py lines 490-515)

The gathered provider results stand in for the network fan-out.  The
endpoint surfaces `multi_model_data["error"]` only when the dictionary has
no `results` key (`"error" in d and "results" not in d`), i.e. only in the
`noKeys` case; the `allFailed` dictionary also carries `results` and
therefore falls through to the renderer. -/

def errShortC : String := "\u00e2\u0152 Error: Question too short. Please provide more detail."
def errHeadC : String := "\u00e2\u0152 Error: "
def errTailC : String := "\n\nPlease ensure API keys are configured."

def audit_question (question : String) (results : List ProviderResult) : String :=
  if (pyStrip question).length < 5 then errShortC
  else
    let domain_info := detect_domain question
    match multi_model_audit results with
    | .noKeys => errHeadC ++ "No API keys configured" ++ errTailC
    | .allFailed rs => format_multi_model_report question ⟨[], rs, none⟩ domain_info
    | .ok models rs c => format_multi_model_report question ⟨models, rs, some c⟩ domain_info

/-! ### Confidence-table parser (specification side, for the round-trip
property)

Modelled from the spec: "rendering then parsing the per-provider confidence
table back out must recover the same set of (provider, confidence) pairs".
The parser scans every line of the report; a line is a table row when it
starts with the row marker `│ ` and splits along the column separator
` │ ` into exactly three cells whose last cell is a decimal number followed
by `%`; the provider name is the first cell with the padding spaces
stripped. -/

/-- Split a character list into lines at `'\n'`. -/
def splitLines : List Char → List (List Char)
  | [] => [[]]
  | c :: cs =>
    if c = '\n' then [] :: splitLines cs
    else
      match splitLines cs with
      | [] => [[c]]
      | h :: t => (c :: h) :: t

/-- The column separator ` │ ` of a table row — five codepoints in the
file's encoding. -/
def sepMark : List Char := [' ', '\u00e2', '\u201d', '\u201a', ' ']

/-- The row marker `│ ` that starts every table row — four codepoints. -/
def rowMark : List Char := ['\u00e2', '\u201d', '\u201a', ' ']

/-- Split along occurrences of the column separator `sepMark`. -/
def splitSep (l : List Char) : List (List Char) :=
  match l with
  | [] => [[]]
  | c :: rest =>
    if seqPre sepMark (c :: rest) = true then [] :: splitSep (rest.drop 4)
    else
      match splitSep rest with
      | [] => [[c]]
      | h :: t => (c :: h) :: t
termination_by l.length
decreasing_by
  · simp only [List.length_cons, List.length_drop]
    omega
  · simp only [List.length_cons]
    omega

/-- Strip trailing spaces (undo the `{model:12}` padding). -/
def dropTrailSpaces (l : List Char) : List Char :=
  (l.reverse.dropWhile (fun c => c == ' ')).reverse

def isDigitCh (c : Char) : Bool := 48 ≤ c.toNat && c.toNat ≤ 57

def digitVal (c : Char) : Nat := c.toNat - 48

def natFromDigits (l : List Char) : Nat :=
  l.foldl (fun a c => 10 * a + digitVal c) 0

/-- Parse the `{conf}%` cell: one or more digits followed by `%`. -/
def parseConfCell (l : List Char) : Option ℚ :=
  match l.getLast? with
  | some '%' =>
    if l.dropLast ≠ [] ∧ l.dropLast.all isDigitCh then
      some ((natFromDigits l.dropLast : ℕ) : ℚ)
    else none
  | _ => none

/-- Recognise one confidence-table row and extract its (provider,
confidence) pair. -/
def parseRow (l : List Char) : Option (String × ℚ) :=
  if seqPre rowMark l = true then
    match splitSep (l.drop 4) with
    | [cell1, _, cell3] =>
      match parseConfCell cell3 with
      | some q => some (⟨dropTrailSpaces cell1⟩, q)
      | none => none
    | _ => none
  else none

/-- All parsed rows of a character list. -/
def parsedRows (l : List Char) : List (String × ℚ) :=
  (splitLines l).filterMap parseRow

/-- Parse the per-provider confidence table out of a rendered report. -/
def parseConfRows (s : String) : List (String × ℚ) := parsedRows s.data

/-- Specification-side reading of Python's `kw in q_lower`: some keyword of
the set occurs contiguously inside the lowered question. -/
def MatchesAnyKw (kws : List String) (q_lower : String) : Prop :=
  ∃ kw ∈ kws, ∃ l r : List Char, q_lower.data = l ++ kw.data ++ r

/-- The character `”` (U+201D): in the file's encoding it occurs in every
box-drawing sequence, in particular in the row marker and column separator
of the confidence table.  Free text that avoids it can never fake or break
a table row. -/
def sepChar : Char := '”'

/-- `s` avoids the separator-critical character. -/
def NoSep (s : String) : Prop := sepChar ∉ s.data

/-- `s` is newline-terminated (or empty): the shape of every piece the
renderer concatenates, which lets the line parser distribute over `++`. -/
def NlTerm (s : String) : Prop := s.data = [] ∨ s.data.getLast? = some '\n'

attribute [local semireducible] Rat.add Rat.inv Rat.mul Rat.sub

/-! ## Theorems -/

/-! ### Generic substring lemmas -/

theorem seqPre_iff (p : List Char) : ∀ l, seqPre p l = true ↔ ∃ t, l = p ++ t := by
  induction p with
  | nil => intro l; simp [seqPre]
  | cons a as ih =>
    intro l
    cases l with
    | nil => simp [seqPre]
    | cons b bs =>
      simp only [seqPre, Bool.and_eq_true, beq_iff_eq, ih, List.cons_append]
      constructor
      · rintro ⟨rfl, t, rfl⟩
        exact ⟨t, rfl⟩
      · rintro ⟨t, ht⟩
        injection ht with h1 h2
        exact ⟨h1.symm, t, h2⟩

theorem containsSeq_iff (p : List Char) :
    ∀ l, containsSeq p l = true ↔ ∃ a b, l = a ++ p ++ b := by
  intro l
  induction l with
  | nil =>
    simp only [containsSeq, List.isEmpty_iff]
    constructor
    · rintro rfl; exact ⟨[], [], rfl⟩
    · rintro ⟨a, b, h⟩
      rcases List.append_eq_nil.mp (List.append_eq_nil.mp h.symm).1 with ⟨-, h2⟩
      exact h2
  | cons c rest ih =>
    simp only [containsSeq, Bool.or_eq_true, seqPre_iff, ih]
    constructor
    · rintro (⟨t, h⟩ | ⟨a, b, h⟩)
      · exact ⟨[], t, by simpa using h⟩
      · exact ⟨c :: a, b, by simp [h]⟩
    · rintro ⟨a, b, h⟩
      cases a with
      | nil => exact Or.inl ⟨b, by simpa using h⟩
      | cons x xs =>
        right
        simp only [List.cons_append] at h
        injection h with h1 h2
        exact ⟨xs, b, h2⟩

theorem pyIn_iff (sub s : String) :
    pyIn sub s = true ↔ ∃ a b, s.data = a ++ sub.data ++ b := containsSeq_iff _ _

theorem kwAny_iff (q_lower : String) (kws : List String) :
    kwAny q_lower kws = true ↔ MatchesAnyKw kws q_lower := by
  simp only [kwAny, List.any_eq_true, MatchesAnyKw, pyIn_iff]

/-- An occurrence in the middle of a longer list is found. -/
theorem containsSeq_middle (p : List Char) : ∀ a b, containsSeq p (a ++ (p ++ b)) = true := by
  intro a b
  rw [containsSeq_iff]
  exact ⟨a, b, by simp⟩

/-! ### C3 — agreement tier -/

/-- C3: the agreement tier the consensus reducer stores is a pure function
of the spread alone — HIGH when spread < 20, MODERATE when 20 ≤ spread < 40,
LOW when spread ≥ 40 — and in particular spread 15 gives HIGH, spreads 20
and 25 give MODERATE, and spreads 40 and 45 give LOW. -/
theorem agreement_tier_of_spread :
    (∀ rs m res c, multi_model_audit rs = .ok m res c →
      c.agreement_level = agreement_level_of c.confidence_spread) ∧
    (∀ s : ℚ, (s < 20 → agreement_level_of s = "HIGH") ∧
      (20 ≤ s → s < 40 → agreement_level_of s = "MODERATE") ∧
      (40 ≤ s → agreement_level_of s = "LOW")) ∧
    agreement_level_of 15 = "HIGH" ∧ agreement_level_of 20 = "MODERATE" ∧
    agreement_level_of 25 = "MODERATE" ∧ agreement_level_of 40 = "LOW" ∧
    agreement_level_of 45 = "LOW" := by
  refine ⟨?_, ?_, by norm_num [agreement_level_of], by norm_num [agreement_level_of],
    by norm_num [agreement_level_of], by norm_num [agreement_level_of],
    by norm_num [agreement_level_of]⟩
  · intro rs m res c h
    unfold multi_model_audit at h
    by_cases h1 : rs.isEmpty = true
    · rw [if_pos h1] at h
      exact absurd h (by simp)
    · rw [if_neg h1] at h
      simp only at h
      by_cases h2 : (List.filter (fun r => r.success) rs).isEmpty = true
      · rw [if_pos h2] at h
        exact absurd h (by simp)
      · rw [if_neg h2] at h
        simp only [AuditOutcome.ok.injEq] at h
        obtain ⟨-, -, hc⟩ := h
        rw [← hc]
  · intro s
    refine ⟨fun h => ?_, fun h1 h2 => ?_, fun h => ?_⟩
    · simp [agreement_level_of, h]
    · have : ¬ s < 20 := by linarith
      simp [agreement_level_of, this, h2]
    · have h1 : ¬ s < 20 := by linarith
      have h2 : ¬ s < 40 := by linarith
      simp [agreement_level_of, h1, h2]

/-- Witness for C3 at concrete spreads, and through `multi_model_audit` on a
concrete two-provider input with confidences 95 and 60 (spread 35). -/
theorem agreement_tier_of_spread_witness :
    agreement_level_of 25 = "MODERATE" ∧ agreement_level_of 45 = "LOW" ∧
    (Consensus.mk (155/2) 60 95 35 "MODERATE").agreement_level =
      agreement_level_of (Consensus.mk (155/2) 60 95 35 "MODERATE").confidence_spread := by
  refine ⟨(agreement_tier_of_spread.2.1 25).2.1 (by norm_num) (by norm_num),
    (agreement_tier_of_spread.2.1 45).2.2 (by norm_num),
    agreement_tier_of_spread.1
      [⟨"GPT-4", some "a", some ⟨95, "w", "u", "", "r"⟩, true, none⟩,
       ⟨"Claude", some "b", some ⟨60, "x", "v", "", "s"⟩, true, none⟩]
      ["GPT-4", "Claude"]
      [⟨"GPT-4", some "a", some ⟨95, "w", "u", "", "r"⟩, true, none⟩,
       ⟨"Claude", some "b", some ⟨60, "x", "v", "", "s"⟩, true, none⟩]
      (Consensus.mk (155/2) 60 95 35 "MODERATE") (by decide)⟩

/-! ### C4 — short questions rejected before any provider call -/

/-- C4: when the trimmed question has fewer than 5 characters the endpoint
returns the fixed too-short error, and the response does not depend on the
provider results at all (no adapter outcome can influence it, i.e. no
provider is consulted). -/
theorem short_question_rejected (question : String)
    (results results' : List ProviderResult) (h : (pyStrip question).length < 5) :
    audit_question question results = errShortC ∧
    audit_question question results = audit_question question results' := by
  unfold audit_question
  rw [if_pos h, if_pos h]
  exact ⟨rfl, rfl⟩

/-- Witness for C4 at the two-character question `"hi"`. -/
theorem short_question_rejected_witness :
    (pyStrip "hi").length < 5 ∧
    audit_question "hi" [⟨"GPT-4", none, none, false, none⟩] = errShortC :=
  ⟨by decide,
   (short_question_rejected "hi" [⟨"GPT-4", none, none, false, none⟩] [] (by decide)).1⟩

/-! ### C5 — no providers configured -/

/-- C5: with an empty configured-adapter list (no gathered results) a valid
request fails with the no-API-keys error string, and no report is rendered
(the response does not even contain the report banner text). -/
theorem no_providers_error (question : String) (h : 5 ≤ (pyStrip question).length) :
    audit_question question [] = errHeadC ++ "No API keys configured" ++ errTailC ∧
    pyIn "AUDITTRAIL" (audit_question question []) = false := by
  have h' : ¬ (pyStrip question).length < 5 := by omega
  unfold audit_question
  rw [if_neg h']
  exact ⟨rfl, by
    show pyIn "AUDITTRAIL" (errHeadC ++ "No API keys configured" ++ errTailC) = false
    decide⟩

/-- Witness for C5 at the question `"hello you okay"`. -/
theorem no_providers_error_witness :
    5 ≤ (pyStrip "hello you okay").length ∧
    audit_question "hello you okay" [] =
      errHeadC ++ "No API keys configured" ++ errTailC :=
  ⟨by decide, (no_providers_error "hello you okay" (by decide)).1⟩

/-! ### C6 — domain classifier priority -/

/-- C6: the classifier matches the lowered question against the fixed
per-domain keyword sets by contiguous substring occurrence, the first
matching domain in the fixed order MEDICAL > LEGAL > CODE > MATHEMATICS >
PHILOSOPHY > EDUCATION > FINANCE wins, and when nothing matches the result
is GENERAL with risk LOW (the function is total: there is no error case). -/
theorem detect_domain_priority (question : String) :
    (MatchesAnyKw medical_keywords (pyLower question) →
      detect_domain question = ⟨"MEDICAL", "VERY_HIGH", emojiMedC⟩) ∧
    (¬ MatchesAnyKw medical_keywords (pyLower question) →
      MatchesAnyKw legal_keywords (pyLower question) →
      detect_domain question = ⟨"LEGAL", "VERY_HIGH", emojiLegC⟩) ∧
    (¬ MatchesAnyKw medical_keywords (pyLower question) →
      ¬ MatchesAnyKw legal_keywords (pyLower question) →
      MatchesAnyKw code_keywords (pyLower question) →
      detect_domain question = ⟨"CODE", "MEDIUM", emojiCodeC⟩) ∧
    (¬ MatchesAnyKw medical_keywords (pyLower question) →
      ¬ MatchesAnyKw legal_keywords (pyLower question) →
      ¬ MatchesAnyKw code_keywords (pyLower question) →
      MatchesAnyKw math_keywords (pyLower question) →
      detect_domain question = ⟨"MATHEMATICS", "LOW", emojiMathC⟩) ∧
    (¬ MatchesAnyKw medical_keywords (pyLower question) →
      ¬ MatchesAnyKw legal_keywords (pyLower question) →
      ¬ MatchesAnyKw code_keywords (pyLower question) →
      ¬ MatchesAnyKw math_keywords (pyLower question) →
      MatchesAnyKw philosophy_keywords (pyLower question) →
      detect_domain question = ⟨"PHILOSOPHY", "LOW", emojiPhilC⟩) ∧
    (¬ MatchesAnyKw medical_keywords (pyLower question) →
      ¬ MatchesAnyKw legal_keywords (pyLower question) →
      ¬ MatchesAnyKw code_keywords (pyLower question) →
      ¬ MatchesAnyKw math_keywords (pyLower question) →
      ¬ MatchesAnyKw philosophy_keywords (pyLower question) →
      MatchesAnyKw education_keywords (pyLower question) →
      detect_domain question = ⟨"EDUCATION", "MEDIUM", emojiEduC⟩) ∧
    (¬ MatchesAnyKw medical_keywords (pyLower question) →
      ¬ MatchesAnyKw legal_keywords (pyLower question) →
      ¬ MatchesAnyKw code_keywords (pyLower question) →
      ¬ MatchesAnyKw math_keywords (pyLower question) →
      ¬ MatchesAnyKw philosophy_keywords (pyLower question) →
      ¬ MatchesAnyKw education_keywords (pyLower question) →
      MatchesAnyKw finance_keywords (pyLower question) →
      detect_domain question = ⟨"FINANCE", "HIGH", emojiFinC⟩) ∧
    (¬ MatchesAnyKw medical_keywords (pyLower question) →
      ¬ MatchesAnyKw legal_keywords (pyLower question) →
      ¬ MatchesAnyKw code_keywords (pyLower question) →
      ¬ MatchesAnyKw math_keywords (pyLower question) →
      ¬ MatchesAnyKw philosophy_keywords (pyLower question) →
      ¬ MatchesAnyKw education_keywords (pyLower question) →
      ¬ MatchesAnyKw finance_keywords (pyLower question) →
      detect_domain question = ⟨"GENERAL", "LOW", emojiGenC⟩ ∧
      (detect_domain question).risk = "LOW") := by
  have hn : ∀ kws, ¬ MatchesAnyKw kws (pyLower question) →
      ¬ (kwAny (pyLower question) kws = true) :=
    fun kws hm hb => hm ((kwAny_iff _ _).mp hb)
  have hp : ∀ kws, MatchesAnyKw kws (pyLower question) →
      kwAny (pyLower question) kws = true :=
    fun kws hm => (kwAny_iff _ _).mpr hm
  refine ⟨fun h1 => ?_, fun n1 h2 => ?_, fun n1 n2 h3 => ?_, fun n1 n2 n3 h4 => ?_,
    fun n1 n2 n3 n4 h5 => ?_, fun n1 n2 n3 n4 n5 h6 => ?_,
    fun n1 n2 n3 n4 n5 n6 h7 => ?_, fun n1 n2 n3 n4 n5 n6 n7 => ?_⟩ <;>
    simp only [detect_domain]
  · rw [if_pos (hp _ h1)]
  · rw [if_neg (hn _ n1), if_pos (hp _ h2)]
  · rw [if_neg (hn _ n1), if_neg (hn _ n2), if_pos (hp _ h3)]
  · rw [if_neg (hn _ n1), if_neg (hn _ n2), if_neg (hn _ n3), if_pos (hp _ h4)]
  · rw [if_neg (hn _ n1), if_neg (hn _ n2), if_neg (hn _ n3), if_neg (hn _ n4),
      if_pos (hp _ h5)]
  · rw [if_neg (hn _ n1), if_neg (hn _ n2), if_neg (hn _ n3), if_neg (hn _ n4),
      if_neg (hn _ n5), if_pos (hp _ h6)]
  · rw [if_neg (hn _ n1), if_neg (hn _ n2), if_neg (hn _ n3), if_neg (hn _ n4),
      if_neg (hn _ n5), if_neg (hn _ n6), if_pos (hp _ h7)]
  · rw [if_neg (hn _ n1), if_neg (hn _ n2), if_neg (hn _ n3), if_neg (hn _ n4),
      if_neg (hn _ n5), if_neg (hn _ n6), if_neg (hn _ n7)]
    exact ⟨rfl, rfl⟩

/-- Witness for C6: a medical keyword wins, and a question matching nothing
falls back to GENERAL/LOW. -/
theorem detect_domain_priority_witness :
    detect_domain "I have a headache" = ⟨"MEDICAL", "VERY_HIGH", emojiMedC⟩ ∧
    detect_domain "hello there friend" = ⟨"GENERAL", "LOW", emojiGenC⟩ := by
  constructor
  · exact (detect_domain_priority "I have a headache").1
      ⟨"headache", by decide, "i have a ".data, [], by decide⟩
  · refine ((detect_domain_priority "hello there friend").2.2.2.2.2.2.2
      ?_ ?_ ?_ ?_ ?_ ?_ ?_).1 <;>
      exact fun hm => absurd ((kwAny_iff _ _).mpr hm) (by decide)

/-! ### C10 — unparseable audit replies fall back to a 50% success -/

/-- C10: when the Claude audit reply fails to parse as JSON, and when the
Gemini brace-extraction attempt yields nothing parseable, the adapters still
return `success = true` with the fallback audit whose confidence is exactly
50 and whose `what_might_be_wrong` is the fixed marker; such a result passes
the reducer's success filter and its 50 enters the list the consensus
average is computed over. -/
theorem unparsed_audit_fallback (answer claude_text gemini_text : String)
    (parseJ : String → Option Audit) (hc : parseJ claude_text = none)
    (hg : geminiExtract gemini_text parseJ = none)
    (others : List ProviderResult)
    (hmem : call_claude answer claude_text parseJ ∈ others) :
    call_claude answer claude_text parseJ =
      ⟨"Claude", some answer, some (fallback_audit claude_text), true, none⟩ ∧
    call_gemini answer gemini_text parseJ =
      ⟨"Gemini", some answer, some (fallback_audit gemini_text), true, none⟩ ∧
    (fallback_audit claude_text).confidence_percentage = 50 ∧
    (fallback_audit claude_text).what_might_be_wrong =
      "Unable to parse structured audit" ∧
    (call_claude answer claude_text parseJ).success = true ∧
    call_claude answer claude_text parseJ ∈
      others.filter (fun r => r.success) ∧
    (50 : ℚ) ∈ (others.filter (fun r => r.success)).map result_conf := by
  have hcc : call_claude answer claude_text parseJ =
      ⟨"Claude", some answer, some (fallback_audit claude_text), true, none⟩ := by
    unfold call_claude
    rw [hc]
  have hgg : call_gemini answer gemini_text parseJ =
      ⟨"Gemini", some answer, some (fallback_audit gemini_text), true, none⟩ := by
    unfold call_gemini
    rw [hg]
  have hsucc : (call_claude answer claude_text parseJ).success = true := by
    rw [hcc]
  have hfil : call_claude answer claude_text parseJ ∈
      others.filter (fun r => r.success) :=
    List.mem_filter.mpr ⟨hmem, hsucc⟩
  refine ⟨hcc, hgg, rfl, rfl, hsucc, hfil, ?_⟩
  refine List.mem_map.mpr ⟨call_claude answer claude_text parseJ, hfil, ?_⟩
  rw [hcc]
  rfl

/-- Witness for C10: a reply with no parseable JSON anywhere, under the
always-failing decoder, together with membership in a one-element result
list. -/
theorem unparsed_audit_fallback_witness :
    (fun _ => (none : Option Audit)) "not json" = none ∧
    geminiExtract "not json" (fun _ => none) = none ∧
    (call_claude "ans" "not json" (fun _ => none)).success = true ∧
    (50 : ℚ) ∈
      ([call_claude "ans" "not json" (fun _ => none)].filter
        (fun r => r.success)).map result_conf := by
  have h := unparsed_audit_fallback "ans" "not json" "not json" (fun _ => none)
    rfl (by decide) [call_claude "ans" "not json" (fun _ => none)]
    (List.mem_singleton.mpr rfl)
  exact ⟨rfl, by decide, h.2.2.2.2.1, h.2.2.2.2.2.2⟩

/-! ### C7 — best result: maximum confidence, first among ties -/

/-- Python `max` fold invariant: the fold result bounds the accumulator and
every element, and is either the accumulator itself or the first element of
the list that strictly exceeds everything before it. -/
theorem foldl_best_spec :
    ∀ (xs : List ProviderResult) (x : ProviderResult),
      (result_conf x ≤ result_conf
        (xs.foldl (fun b a => if result_conf a > result_conf b then a else b) x)) ∧
      (∀ a ∈ xs, result_conf a ≤ result_conf
        (xs.foldl (fun b a => if result_conf a > result_conf b then a else b) x)) ∧
      ((xs.foldl (fun b a => if result_conf a > result_conf b then a else b) x) = x ∨
        ∃ i : Nat, xs[i]? =
            some (xs.foldl (fun b a => if result_conf a > result_conf b then a else b) x) ∧
          result_conf x < result_conf
            (xs.foldl (fun b a => if result_conf a > result_conf b then a else b) x) ∧
          ∀ (j : Nat) (r : ProviderResult), j < i → xs[j]? = some r →
            result_conf r < result_conf
              (xs.foldl (fun b a => if result_conf a > result_conf b then a else b) x)) := by
  intro xs
  induction xs with
  | nil => exact fun x => ⟨le_refl _, by simp, Or.inl rfl⟩
  | cons a t ih =>
    intro x
    simp only [List.foldl_cons]
    by_cases hgt : result_conf a > result_conf x
    · rw [if_pos hgt]
      obtain ⟨hacc, hall, hpos⟩ := ih a
      refine ⟨le_trans (le_of_lt hgt) hacc, ?_, ?_⟩
      · intro b hb
        rw [List.mem_cons] at hb
        rcases hb with rfl | hb
        · exact hacc
        · exact hall _ hb
      · rcases hpos with heq | ⟨i, hi, hlt, hfirst⟩
        · refine Or.inr ⟨0, ?_, ?_, ?_⟩
          · simp [heq]
          · rw [heq]; exact hgt
          · intro j r hj _; omega
        · refine Or.inr ⟨i + 1, ?_, ?_, ?_⟩
          · simpa using hi
          · exact lt_trans hgt hlt
          · intro j r hj hr
            cases j with
            | zero =>
              simp only [List.getElem?_cons_zero, Option.some.injEq] at hr
              rw [← hr]
              exact hlt
            | succ k =>
              simp only [List.getElem?_cons_succ] at hr
              exact hfirst k r (by omega) hr
    · rw [if_neg hgt]
      obtain ⟨hacc, hall, hpos⟩ := ih x
      refine ⟨hacc, ?_, ?_⟩
      · intro b hb
        rw [List.mem_cons] at hb
        rcases hb with rfl | hb
        · exact le_trans (le_of_not_lt hgt) hacc
        · exact hall _ hb
      · rcases hpos with heq | ⟨i, hi, hlt, hfirst⟩
        · exact Or.inl heq
        · refine Or.inr ⟨i + 1, by simpa using hi, hlt, ?_⟩
          intro j r hj hr
          cases j with
          | zero =>
            simp only [List.getElem?_cons_zero, Option.some.injEq] at hr
            rw [← hr]
            exact lt_of_le_of_lt (le_of_not_lt hgt) hlt
          | succ k =>
            simp only [List.getElem?_cons_succ] at hr
            exact hfirst k r (by omega) hr

/-- C7: for a non-empty renderer input, the result whose detailed critique is
surfaced is one occurring in the list, its confidence bounds every result's
confidence, and every result strictly before it has strictly smaller
confidence — i.e. it is the first result attaining the maximum. -/
theorem best_result_first_max (results : List ProviderResult) (h : results ≠ []) :
    ∃ i : Nat, results[i]? = some (best_result_of results) ∧
      (∀ r ∈ results, result_conf r ≤ result_conf (best_result_of results)) ∧
      (∀ (j : Nat) (r : ProviderResult), j < i → results[j]? = some r →
        result_conf r < result_conf (best_result_of results)) := by
  cases results with
  | nil => exact absurd rfl h
  | cons x xs =>
    obtain ⟨hacc, hall, hpos⟩ := foldl_best_spec xs x
    have hbest : best_result_of (x :: xs) =
        xs.foldl (fun b a => if result_conf a > result_conf b then a else b) x := rfl
    rcases hpos with heq | ⟨i, hi, hlt, hfirst⟩
    · refine ⟨0, ?_, ?_, ?_⟩
      · rw [hbest, heq]; simp
      · intro r hr
        rw [List.mem_cons] at hr
        rcases hr with rfl | hr
        · exact hacc
        · exact hall _ hr
      · intro j r hj _; omega
    · refine ⟨i + 1, ?_, ?_, ?_⟩
      · rw [hbest]; simpa using hi
      · intro r hr
        rw [List.mem_cons] at hr
        rcases hr with rfl | hr
        · exact hacc
        · exact hall _ hr
      · intro j r hj hr
        cases j with
        | zero =>
          simp only [List.getElem?_cons_zero, Option.some.injEq] at hr
          rw [hbest, ← hr]
          exact hlt
        | succ k =>
          simp only [List.getElem?_cons_succ] at hr
          rw [hbest]
          exact hfirst k r (by omega) hr

/-- Witness for C7 on a tie: two results share the maximal confidence 70 and
the first one is selected. -/
theorem best_result_first_max_witness :
    best_result_of
      [⟨"GPT-4", some "a", some ⟨70, "", "", "", ""⟩, true, none⟩,
       ⟨"Claude", some "b", some ⟨70, "", "", "", ""⟩, true, none⟩,
       ⟨"Gemini", some "c", some ⟨50, "", "", "", ""⟩, true, none⟩] =
      ⟨"GPT-4", some "a", some ⟨70, "", "", "", ""⟩, true, none⟩ ∧
    ∃ i : Nat, ([⟨"GPT-4", some "a", some ⟨70, "", "", "", ""⟩, true, none⟩,
       ⟨"Claude", some "b", some ⟨70, "", "", "", ""⟩, true, none⟩,
       ⟨"Gemini", some "c", some ⟨50, "", "", "", ""⟩, true, none⟩] :
        List ProviderResult)[i]? =
        some (best_result_of
          [⟨"GPT-4", some "a", some ⟨70, "", "", "", ""⟩, true, none⟩,
           ⟨"Claude", some "b", some ⟨70, "", "", "", ""⟩, true, none⟩,
           ⟨"Gemini", some "c", some ⟨50, "", "", "", ""⟩, true, none⟩]) ∧
      (∀ r ∈ ([⟨"GPT-4", some "a", some ⟨70, "", "", "", ""⟩, true, none⟩,
        ⟨"Claude", some "b", some ⟨70, "", "", "", ""⟩, true, none⟩,
        ⟨"Gemini", some "c", some ⟨50, "", "", "", ""⟩, true, none⟩] :
          List ProviderResult),
        result_conf r ≤ result_conf (best_result_of
          [⟨"GPT-4", some "a", some ⟨70, "", "", "", ""⟩, true, none⟩,
           ⟨"Claude", some "b", some ⟨70, "", "", "", ""⟩, true, none⟩,
           ⟨"Gemini", some "c", some ⟨50, "", "", "", ""⟩, true, none⟩])) ∧
      (∀ (j : Nat) (r : ProviderResult), j < i →
        ([⟨"GPT-4", some "a", some ⟨70, "", "", "", ""⟩, true, none⟩,
          ⟨"Claude", some "b", some ⟨70, "", "", "", ""⟩, true, none⟩,
          ⟨"Gemini", some "c", some ⟨50, "", "", "", ""⟩, true, none⟩] :
            List ProviderResult)[j]? = some r →
        result_conf r < result_conf (best_result_of
          [⟨"GPT-4", some "a", some ⟨70, "", "", "", ""⟩, true, none⟩,
           ⟨"Claude", some "b", some ⟨70, "", "", "", ""⟩, true, none⟩,
           ⟨"Gemini", some "c", some ⟨50, "", "", "", ""⟩, true, none⟩])) :=
  ⟨by decide, best_result_first_max _ (by decide)⟩

/-! ### C2 — consensus statistics -/

/-- Python `min` fold invariant. -/
theorem foldl_min_spec : ∀ (l : List ℚ) (a : ℚ),
    l.foldl min a ≤ a ∧ (∀ x ∈ l, l.foldl min a ≤ x) ∧
      (l.foldl min a = a ∨ l.foldl min a ∈ l) := by
  intro l
  induction l with
  | nil => exact fun a => ⟨le_refl _, by simp, Or.inl rfl⟩
  | cons b t ih =>
    intro a
    simp only [List.foldl_cons]
    obtain ⟨hacc, hall, hpos⟩ := ih (min a b)
    refine ⟨le_trans hacc (min_le_left a b), ?_, ?_⟩
    · intro x hx
      rw [List.mem_cons] at hx
      rcases hx with rfl | hx
      · exact le_trans hacc (min_le_right a x)
      · exact hall _ hx
    · rcases hpos with heq | hmem
      · rcases le_total a b with hab | hab
        · exact Or.inl (by rw [heq, min_eq_left hab])
        · exact Or.inr (by rw [heq, min_eq_right hab]; exact List.mem_cons_self b t)
      · exact Or.inr (List.mem_cons_of_mem b hmem)

/-- Python `max` fold invariant. -/
theorem foldl_max_spec : ∀ (l : List ℚ) (a : ℚ),
    a ≤ l.foldl max a ∧ (∀ x ∈ l, x ≤ l.foldl max a) ∧
      (l.foldl max a = a ∨ l.foldl max a ∈ l) := by
  intro l
  induction l with
  | nil => exact fun a => ⟨le_refl _, by simp, Or.inl rfl⟩
  | cons b t ih =>
    intro a
    simp only [List.foldl_cons]
    obtain ⟨hacc, hall, hpos⟩ := ih (max a b)
    refine ⟨le_trans (le_max_left a b) hacc, ?_, ?_⟩
    · intro x hx
      rw [List.mem_cons] at hx
      rcases hx with rfl | hx
      · exact le_trans (le_max_right a x) hacc
      · exact hall _ hx
    · rcases hpos with heq | hmem
      · rcases le_total b a with hab | hab
        · exact Or.inl (by rw [heq, max_eq_left hab])
        · exact Or.inr (by rw [heq, max_eq_right hab]; exact List.mem_cons_self b t)
      · exact Or.inr (List.mem_cons_of_mem b hmem)

/-- For a non-empty list, `listMin` is an attained lower bound. -/
theorem listMin_spec (l : List ℚ) (h : l ≠ []) :
    listMin l ∈ l ∧ ∀ x ∈ l, listMin l ≤ x := by
  cases l with
  | nil => exact absurd rfl h
  | cons a t =>
    obtain ⟨hacc, hall, hpos⟩ := foldl_min_spec t a
    refine ⟨?_, ?_⟩
    · rcases hpos with heq | hmem
      · rw [listMin, heq]; exact List.mem_cons_self a t
      · exact List.mem_cons_of_mem a hmem
    · intro x hx
      rw [List.mem_cons] at hx
      rcases hx with rfl | hx
      · exact hacc
      · exact hall _ hx

/-- For a non-empty list, `listMax` is an attained upper bound. -/
theorem listMax_spec (l : List ℚ) (h : l ≠ []) :
    listMax l ∈ l ∧ ∀ x ∈ l, x ≤ listMax l := by
  cases l with
  | nil => exact absurd rfl h
  | cons a t =>
    obtain ⟨hacc, hall, hpos⟩ := foldl_max_spec t a
    refine ⟨?_, ?_⟩
    · rcases hpos with heq | hmem
      · rw [listMax, heq]; exact List.mem_cons_self a t
      · exact List.mem_cons_of_mem a hmem
    · intro x hx
      rw [List.mem_cons] at hx
      rcases hx with rfl | hx
      · exact hacc
      · exact hall _ hx

/-- A uniform lower bound on the elements bounds the sum from below. -/
theorem sum_ge_of_forall_ge (l : List ℚ) (m : ℚ) (h : ∀ x ∈ l, m ≤ x) :
    (l.length : ℚ) * m ≤ l.sum := by
  induction l with
  | nil => simp
  | cons a t ih =>
    have ha : m ≤ a := h a (List.mem_cons_self a t)
    have ht : (t.length : ℚ) * m ≤ t.sum := ih (fun x hx => h x (List.mem_cons_of_mem a hx))
    simp only [List.sum_cons, List.length_cons]
    push_cast
    linarith

/-- A uniform upper bound on the elements bounds the sum from above. -/
theorem sum_le_of_forall_le (l : List ℚ) (m : ℚ) (h : ∀ x ∈ l, x ≤ m) :
    l.sum ≤ (l.length : ℚ) * m := by
  induction l with
  | nil => simp
  | cons a t ih =>
    have ha : a ≤ m := h a (List.mem_cons_self a t)
    have ht : t.sum ≤ (t.length : ℚ) * m := ih (fun x hx => h x (List.mem_cons_of_mem a hx))
    simp only [List.sum_cons, List.length_cons]
    push_cast
    linarith

/-- The arithmetic mean of a non-empty list lies between `listMin` and
`listMax`. -/
theorem mean_between (l : List ℚ) (h : l ≠ []) :
    listMin l ≤ l.sum / (l.length : ℚ) ∧ l.sum / (l.length : ℚ) ≤ listMax l := by
  have hlen : (0 : ℚ) < (l.length : ℚ) := by
    have : 0 < l.length := List.length_pos.mpr h
    exact_mod_cast this
  constructor
  · rw [le_div_iff₀ hlen]
    have := sum_ge_of_forall_ge l (listMin l) (listMin_spec l h).2
    linarith
  · rw [div_le_iff₀ hlen]
    have := sum_le_of_forall_le l (listMax l) (listMax_spec l h).2
    linarith

/-- Half-to-even rounding moves a rational by at most `1/2`. -/
theorem roundHalfEven_bounds (x : ℚ) :
    x - 1/2 ≤ (roundHalfEven x : ℚ) ∧ (roundHalfEven x : ℚ) ≤ x + 1/2 := by
  have hfl : (⌊x⌋ : ℚ) ≤ x := Int.floor_le x
  have hfu : x < (⌊x⌋ : ℚ) + 1 := Int.lt_floor_add_one x
  have hdef : roundHalfEven x =
      if x - (⌊x⌋ : ℚ) < 1/2 then ⌊x⌋
      else if (1 : ℚ)/2 < x - (⌊x⌋ : ℚ) then ⌊x⌋ + 1
      else if ⌊x⌋ % 2 = 0 then ⌊x⌋ else ⌊x⌋ + 1 := rfl
  rw [hdef]
  split_ifs with h1 h2 h3 <;> push_cast <;> constructor <;> linarith

/-- `round(x, 1)` moves a rational by at most `1/20`. -/
theorem pyRound1_bounds (x : ℚ) :
    x - 1/20 ≤ pyRound1 x ∧ pyRound1 x ≤ x + 1/20 := by
  obtain ⟨h1, h2⟩ := roundHalfEven_bounds (x * 10)
  unfold pyRound1
  constructor
  · rw [le_div_iff₀ (by norm_num : (0:ℚ) < 10)]
    linarith
  · rw [div_le_iff₀ (by norm_num : (0:ℚ) < 10)]
    linarith

/-- Rounding at one decimal cannot cross an integer lower bound. -/
theorem pyRound1_ge_int (m x : ℚ) (hm : m.den = 1) (h : m ≤ x) : m ≤ pyRound1 x := by
  have hm' : (m.num : ℚ) = m := Rat.coe_int_num_of_den_eq_one hm
  obtain ⟨h1, _⟩ := roundHalfEven_bounds (x * 10)
  have hzq : (10 * m.num : ℤ) ≤ roundHalfEven (x * 10) := by
    by_contra hcon
    push_neg at hcon
    have hc1 : (roundHalfEven (x * 10) : ℚ) ≤ ((10 * m.num : ℤ) : ℚ) - 1 := by
      have := Int.le_sub_one_of_lt hcon
      exact_mod_cast this
    have hc2 : ((10 * m.num : ℤ) : ℚ) = 10 * m := by
      push_cast [hm']
      ring
    linarith
  have hq : ((10 * m.num : ℤ) : ℚ) ≤ (roundHalfEven (x * 10) : ℚ) := by exact_mod_cast hzq
  have hc2 : ((10 * m.num : ℤ) : ℚ) = 10 * m := by
    push_cast [hm']
    ring
  unfold pyRound1
  rw [le_div_iff₀ (by norm_num : (0:ℚ) < 10)]
  linarith

/-- Rounding at one decimal cannot cross an integer upper bound. -/
theorem pyRound1_le_int (m x : ℚ) (hm : m.den = 1) (h : x ≤ m) : pyRound1 x ≤ m := by
  have hm' : (m.num : ℚ) = m := Rat.coe_int_num_of_den_eq_one hm
  obtain ⟨_, h2⟩ := roundHalfEven_bounds (x * 10)
  have hzq : roundHalfEven (x * 10) ≤ (10 * m.num : ℤ) := by
    by_contra hcon
    push_neg at hcon
    have hc1 : ((10 * m.num : ℤ) : ℚ) + 1 ≤ (roundHalfEven (x * 10) : ℚ) := by
      have := Int.add_one_le_of_lt hcon
      exact_mod_cast this
    have hc2 : ((10 * m.num : ℤ) : ℚ) = 10 * m := by
      push_cast [hm']
      ring
    linarith
  have hq : (roundHalfEven (x * 10) : ℚ) ≤ ((10 * m.num : ℤ) : ℚ) := by exact_mod_cast hzq
  have hc2 : ((10 * m.num : ℤ) : ℚ) = 10 * m := by
    push_cast [hm']
    ring
  unfold pyRound1
  rw [div_le_iff₀ (by norm_num : (0:ℚ) < 10)]
  linarith

/-- C2 (amended): for every result list with at least one success, the
reducer returns the success dictionary over exactly the successful results;
the stored `min`, `max` are attained bounds of the successful confidence
scores, `spread = max − min` exactly, the exact arithmetic mean lies in
`[min, max]`, and the stored average is the mean rounded to one decimal —
which also lies in `[min, max]` whenever all confidence scores are
integers. -/
theorem consensus_reducer_spec (results : List ProviderResult)
    (h : results.filter (fun r => r.success) ≠ []) :
    ∃ c : Consensus,
      multi_model_audit results =
        .ok ((results.filter (fun r => r.success)).map (fun r => r.model))
          (results.filter (fun r => r.success)) c ∧
      c.min_confidence ∈ (results.filter (fun r => r.success)).map result_conf ∧
      (∀ x ∈ (results.filter (fun r => r.success)).map result_conf,
        c.min_confidence ≤ x ∧ x ≤ c.max_confidence) ∧
      c.max_confidence ∈ (results.filter (fun r => r.success)).map result_conf ∧
      c.confidence_spread = c.max_confidence - c.min_confidence ∧
      c.min_confidence ≤
        ((results.filter (fun r => r.success)).map result_conf).sum /
          ((((results.filter (fun r => r.success)).map result_conf).length : ℚ)) ∧
      ((results.filter (fun r => r.success)).map result_conf).sum /
          ((((results.filter (fun r => r.success)).map result_conf).length : ℚ)) ≤
        c.max_confidence ∧
      c.average_confidence =
        pyRound1 (((results.filter (fun r => r.success)).map result_conf).sum /
          ((((results.filter (fun r => r.success)).map result_conf).length : ℚ))) ∧
      ((∀ x ∈ (results.filter (fun r => r.success)).map result_conf, x.den = 1) →
        c.min_confidence ≤ c.average_confidence ∧
        c.average_confidence ≤ c.max_confidence) := by
  have hres : results ≠ [] := by
    intro hr
    exact h (by simp [hr])
  have hne : (results.filter (fun r => r.success)).map result_conf ≠ [] := by
    intro hc
    exact h (List.map_eq_nil_iff.mp hc)
  have hmin := listMin_spec _ hne
  have hmax := listMax_spec _ hne
  have hmean := mean_between _ hne
  refine ⟨⟨pyRound1
      (((results.filter (fun r => r.success)).map result_conf).sum /
        ((((results.filter (fun r => r.success)).map result_conf).length : ℚ))),
    listMin ((results.filter (fun r => r.success)).map result_conf),
    listMax ((results.filter (fun r => r.success)).map result_conf),
    listMax ((results.filter (fun r => r.success)).map result_conf) -
      listMin ((results.filter (fun r => r.success)).map result_conf),
    agreement_level_of
      (listMax ((results.filter (fun r => r.success)).map result_conf) -
        listMin ((results.filter (fun r => r.success)).map result_conf))⟩,
    ?_, hmin.1, ?_, hmax.1, rfl, hmean.1, hmean.2, rfl, ?_⟩
  · unfold multi_model_audit
    rw [if_neg (fun hb => hres (List.isEmpty_iff.mp hb))]
    simp only
    rw [if_neg (fun hb => h (List.isEmpty_iff.mp hb))]
  · exact fun x hx => ⟨hmin.2 x hx, hmax.2 x hx⟩
  · intro hint
    constructor
    · exact pyRound1_ge_int _ _ (hint _ hmin.1) hmean.1
    · exact pyRound1_le_int _ _ (hint _ hmax.1) hmean.2

/-- Counterexample to C2 as stated: with successful confidences 0, 0 and 1
the summary's stored average is `round(1/3, 1) = 0.3`, not the arithmetic
mean `1/3` — the reducer does not store the exact mean. -/
theorem consensus_average_not_mean :
    multi_model_audit
      [⟨"GPT-4", some "a", some ⟨0, "", "", "", ""⟩, true, none⟩,
       ⟨"Claude", some "b", some ⟨0, "", "", "", ""⟩, true, none⟩,
       ⟨"Gemini", some "c", some ⟨1, "", "", "", ""⟩, true, none⟩] =
      .ok ["GPT-4", "Claude", "Gemini"]
        [⟨"GPT-4", some "a", some ⟨0, "", "", "", ""⟩, true, none⟩,
         ⟨"Claude", some "b", some ⟨0, "", "", "", ""⟩, true, none⟩,
         ⟨"Gemini", some "c", some ⟨1, "", "", "", ""⟩, true, none⟩]
        ⟨3/10, 0, 1, 1, "HIGH"⟩ ∧
    (3 : ℚ)/10 ≠ ((0 : ℚ) + 0 + 1) / 3 := by
  constructor
  · decide
  · norm_num

/-- Witness for C2 on the concrete input with confidences 95 and 60. -/
theorem consensus_reducer_spec_witness :
    ∃ c : Consensus,
      multi_model_audit
        [⟨"GPT-4", some "a", some ⟨95, "w", "u", "", "r"⟩, true, none⟩,
         ⟨"Claude", some "b", some ⟨60, "x", "v", "", "s"⟩, true, none⟩] =
        .ok ["GPT-4", "Claude"]
          [⟨"GPT-4", some "a", some ⟨95, "w", "u", "", "r"⟩, true, none⟩,
           ⟨"Claude", some "b", some ⟨60, "x", "v", "", "s"⟩, true, none⟩] c ∧
      c.confidence_spread = c.max_confidence - c.min_confidence ∧
      c.min_confidence ≤ c.average_confidence ∧
      c.average_confidence ≤ c.max_confidence := by
  obtain ⟨c, hok, _, _, _, hspread, _, _, _, hint⟩ :=
    consensus_reducer_spec
      [⟨"GPT-4", some "a", some ⟨95, "w", "u", "", "r"⟩, true, none⟩,
       ⟨"Claude", some "b", some ⟨60, "x", "v", "", "s"⟩, true, none⟩]
      (by decide)
  obtain ⟨hlo, hhi⟩ := hint (by decide)
  exact ⟨c, hok, hspread, hlo, hhi⟩

/-! ### String and line machinery for the round-trip proofs -/

theorem strData_append (a b : String) : (a ++ b).data = a.data ++ b.data := by
  cases a
  cases b
  rfl

theorem strAppend_assoc (a b c : String) : a ++ b ++ c = a ++ (b ++ c) := by
  cases a
  cases b
  cases c
  exact congrArg String.mk (List.append_assoc _ _ _)

theorem strEmpty_append (t : String) : "" ++ t = t := by
  cases t
  rfl

theorem strConcat_cons (x : String) (xs : List String) :
    strConcat (x :: xs) = x ++ strConcat xs := rfl

theorem lnData (s : String) : (ln s).data = s.data ++ ['\n'] := by
  unfold ln
  rw [strData_append]

theorem splitLines_ne_nil (l : List Char) : splitLines l ≠ [] := by
  cases l with
  | nil => simp [splitLines]
  | cons c cs =>
    by_cases hc : c = '\n'
    · subst hc
      simp [splitLines]
    · simp only [splitLines, if_neg hc]
      cases h : splitLines cs with
      | nil => simp
      | cons a b => simp

theorem splitLines_nl (cs : List Char) : splitLines ('\n' :: cs) = [] :: splitLines cs := by
  simp [splitLines]

theorem splitLines_cons_ne (c : Char) (cs : List Char) (hc : c ≠ '\n')
    (hd : List Char) (tl : List (List Char)) (h : splitLines cs = hd :: tl) :
    splitLines (c :: cs) = (c :: hd) :: tl := by
  simp only [splitLines, if_neg hc, h]

theorem splitLines_shape (l : List Char) :
    ∃ hd tl, splitLines l = hd :: tl := by
  cases h : splitLines l with
  | nil => exact absurd h (splitLines_ne_nil l)
  | cons x y => exact ⟨x, y, rfl⟩

theorem splitLines_noNl (l : List Char) (h : '\n' ∉ l) : splitLines l = [l] := by
  induction l with
  | nil => rfl
  | cons c cs ih =>
    have hc : c ≠ '\n' := fun e => h (e ▸ List.mem_cons_self c cs)
    exact splitLines_cons_ne c cs hc cs []
      (ih (fun m => h (List.mem_cons_of_mem c m)))

theorem splitLines_append_noNl (a l : List Char) (ha : '\n' ∉ a)
    (hd : List Char) (tl : List (List Char)) (h : splitLines l = hd :: tl) :
    splitLines (a ++ l) = (a ++ hd) :: tl := by
  induction a with
  | nil => simpa using h
  | cons c a' ih =>
    have hc : c ≠ '\n' := fun e => ha (e ▸ List.mem_cons_self c a')
    have ha' : '\n' ∉ a' := fun m => ha (List.mem_cons_of_mem c m)
    rw [List.cons_append,
      splitLines_cons_ne c (a' ++ l) hc (a' ++ hd) tl (ih ha'),
      List.cons_append]

theorem splitLines_append_nl (a b : List Char) :
    splitLines (a ++ '\n' :: b) = splitLines a ++ splitLines b := by
  induction a with
  | nil => simp [splitLines_nl, splitLines]
  | cons c a' ih =>
    by_cases hc : c = '\n'
    · subst hc
      rw [List.cons_append, splitLines_nl, splitLines_nl, ih, List.cons_append]
    · obtain ⟨hd', tl', h'⟩ := splitLines_shape a'
      have hih : splitLines (a' ++ '\n' :: b) = hd' :: (tl' ++ splitLines b) := by
        rw [ih, h', List.cons_append]
      rw [List.cons_append, splitLines_cons_ne c _ hc hd' (tl' ++ splitLines b) hih,
        splitLines_cons_ne c a' hc hd' tl' h', List.cons_append]

theorem mem_of_mem_splitLines (l : List Char) :
    ∀ li ∈ splitLines l, ∀ x ∈ li, x ∈ l := by
  induction l with
  | nil =>
    intro li hli x hx
    simp only [splitLines, List.mem_singleton] at hli
    subst hli
    simp at hx
  | cons c cs ih =>
    intro li hli x hx
    by_cases hc : c = '\n'
    · subst hc
      rw [splitLines_nl] at hli
      rcases List.mem_cons.mp hli with rfl | hli'
      · simp at hx
      · exact List.mem_cons_of_mem _ (ih li hli' x hx)
    · obtain ⟨hd, tl, h⟩ := splitLines_shape cs
      rw [splitLines_cons_ne c cs hc hd tl h] at hli
      rcases List.mem_cons.mp hli with rfl | hli'
      · rcases List.mem_cons.mp hx with rfl | hx'
        · exact List.mem_cons_self _ _
        · exact List.mem_cons_of_mem _ (ih hd (h ▸ List.mem_cons_self _ _) x hx')
      · exact List.mem_cons_of_mem _ (ih li (h ▸ List.mem_cons_of_mem _ hli') x hx)

theorem parsedRows_nil : parsedRows [] = [] := by decide

theorem parsedRows_append_nl (a b : List Char) :
    parsedRows (a ++ '\n' :: b) = parsedRows a ++ parsedRows b := by
  unfold parsedRows
  rw [splitLines_append_nl, List.filterMap_append]

theorem parseConfRows_ln_append (s t : String) :
    parseConfRows (ln s ++ t) = parsedRows s.data ++ parseConfRows t := by
  unfold parseConfRows
  have hd : (ln s ++ t).data = s.data ++ '\n' :: t.data := by
    rw [strData_append, lnData, List.append_assoc]
    rfl
  rw [hd, parsedRows_append_nl]

theorem parseConfRows_ln (s : String) :
    parseConfRows (ln s) = parsedRows s.data := by
  unfold parseConfRows
  rw [lnData, show s.data ++ ['\n'] = s.data ++ '\n' :: [] from rfl,
    parsedRows_append_nl, parsedRows_nil, List.append_nil]

theorem seqPre_append_of_le (p : List Char) :
    ∀ (a t : List Char), p.length ≤ a.length → seqPre p (a ++ t) = seqPre p a := by
  induction p with
  | nil => intro a t _; simp [seqPre]
  | cons x p' ih =>
    intro a t h
    cases a with
    | nil => simp at h
    | cons y a' =>
      simp only [List.cons_append, seqPre, List.append_eq]
      rw [ih a' t (by simpa using h)]

theorem parseRow_none_of_noSep (l : List Char) (h : sepChar ∉ l) : parseRow l = none := by
  unfold parseRow
  rw [if_neg]
  intro hseq
  obtain ⟨t, ht⟩ := (seqPre_iff _ _).mp hseq
  exact h (ht ▸ List.mem_append_left _ (by decide))

theorem parsedRows_of_noSep (l : List Char) (h : sepChar ∉ l) : parsedRows l = [] := by
  unfold parsedRows
  rw [List.filterMap_eq_nil_iff]
  intro li hli
  exact parseRow_none_of_noSep li (fun hx => h (mem_of_mem_splitLines l li hli _ hx))

theorem parsedRows_single_reject (l : List Char) (hnl : '\n' ∉ l)
    (hpr : parseRow l = none) : parsedRows l = [] := by
  unfold parsedRows
  rw [splitLines_noNl l hnl]
  simp [hpr]

theorem parseRow_none_of_head4 (a t : List Char) (h4 : 4 ≤ a.length)
    (hseq : seqPre rowMark a = false) : parseRow (a ++ t) = none := by
  unfold parseRow
  rw [if_neg]
  intro hx
  rw [seqPre_append_of_le rowMark a t (by simpa [rowMark] using h4), hseq] at hx
  cases hx

theorem not_containsSeq_of_noSep (l : List Char) (h : sepChar ∉ l) :
    containsSeq sepMark l = false := by
  induction l with
  | nil => rfl
  | cons c rest ih =>
    unfold containsSeq
    rw [ih (fun hx => h (List.mem_cons_of_mem _ hx)), Bool.or_false]
    rw [Bool.eq_false_iff]
    intro hseq
    obtain ⟨t, ht⟩ := (seqPre_iff _ _).mp hseq
    exact h (ht ▸ List.mem_append_left _ (by decide))

theorem splitSep_of_not_contains (l : List Char) (h : containsSeq sepMark l = false) :
    splitSep l = [l] := by
  induction l with
  | nil => exact splitSep.eq_1
  | cons c rest ih =>
    unfold containsSeq at h
    rw [Bool.or_eq_false_iff] at h
    conv_lhs => rw [splitSep.eq_def]
    show (if seqPre sepMark (c :: rest) = true then [] :: splitSep (List.drop 4 rest)
      else match splitSep rest with
        | [] => [[c]]
        | h :: t => (c :: h) :: t) = [c :: rest]
    rw [if_neg (by rw [h.1]; exact fun hx => nomatch hx), ih h.2]

theorem splitSep_of_noSep (l : List Char) (h : sepChar ∉ l) : splitSep l = [l] :=
  splitSep_of_not_contains l (not_containsSeq_of_noSep l h)

theorem splitSep_sep_append :
    ∀ (a t : List Char), sepChar ∉ a → splitSep (a ++ (sepMark ++ t)) = a :: splitSep t := by
  intro a
  induction a with
  | nil =>
    intro t _
    show splitSep (sepMark ++ t) = [] :: splitSep t
    conv_lhs => rw [splitSep.eq_def]
    show (if seqPre sepMark (' ' :: 'â' :: '”' :: '‚' :: ' ' :: t) = true then
        [] :: splitSep (List.drop 4 ('â' :: '”' :: '‚' :: ' ' :: t))
      else match splitSep ('â' :: '”' :: '‚' :: ' ' :: t) with
        | [] => [[' ']]
        | h :: t => (' ' :: h) :: t) = [] :: splitSep t
    rw [if_pos (by exact (seqPre_iff _ _).mpr ⟨t, rfl⟩)]
    rfl
  | cons c a' ih =>
    intro t h
    have hmem : sepChar ∉ a' := fun hx => h (List.mem_cons_of_mem _ hx)
    have hne : ¬ (seqPre sepMark (c :: (a' ++ (sepMark ++ t))) = true) := by
      intro hseq
      obtain ⟨u, hu⟩ := (seqPre_iff _ _).mp hseq
      match a', hu with
      | [], hu =>
        rw [show sepMark ++ t = ' ' :: 'â' :: '”' :: '‚' :: ' ' :: t from rfl,
          show sepMark ++ u = ' ' :: 'â' :: '”' :: '‚' :: ' ' :: u from rfl,
          List.nil_append] at hu
        injection hu with h1 hu; injection hu with h2 hu
        exact absurd h2 (by decide)
      | [c2], hu =>
        rw [show sepMark ++ t = ' ' :: 'â' :: '”' :: '‚' :: ' ' :: t from rfl,
          show sepMark ++ u = ' ' :: 'â' :: '”' :: '‚' :: ' ' :: u from rfl,
          List.cons_append, List.nil_append] at hu
        injection hu with h1 hu; injection hu with h2 hu; injection hu with h3 hu
        exact absurd h3 (by decide)
      | c2 :: c3 :: a'', hu =>
        rw [show sepMark ++ u = ' ' :: 'â' :: '”' :: '‚' :: ' ' :: u from rfl,
          List.cons_append, List.cons_append] at hu
        injection hu with h1 hu; injection hu with h2 hu; injection hu with h3 hu
        exact hmem (h3 ▸ List.mem_cons_of_mem _ (List.mem_cons_self _ _))
    rw [List.cons_append]
    conv_lhs => rw [splitSep.eq_def]
    show (if seqPre sepMark (c :: (a' ++ (sepMark ++ t))) = true then
        [] :: splitSep (List.drop 4 (a' ++ (sepMark ++ t)))
      else match splitSep (a' ++ (sepMark ++ t)) with
        | [] => [[c]]
        | h :: t => (c :: h) :: t) = (c :: a') :: splitSep t
    rw [if_neg hne, ih t hmem]

theorem digitChar_spec (m : Nat) (h : m < 10) :
    isDigitCh (digitChar m) = true ∧ digitVal (digitChar m) = m ∧
      digitChar m ≠ sepChar ∧ digitChar m ≠ '\n' := by
  interval_cases m <;> exact ⟨by decide, by decide, by decide, by decide⟩

theorem natDigits_spec (n : Nat) :
    natDigits n ≠ [] ∧
    (∀ c ∈ natDigits n, isDigitCh c = true ∧ c ≠ sepChar ∧ c ≠ '\n') ∧
    natFromDigits (natDigits n) = n := by
  induction n using Nat.strong_induction_on with
  | _ n ih =>
    by_cases h : n < 10
    · obtain ⟨hd1, hd2, hd3, hd4⟩ := digitChar_spec n h
      unfold natDigits
      rw [dif_pos h]
      refine ⟨by simp, ?_, ?_⟩
      · intro c hc
        rw [List.mem_singleton] at hc
        subst hc
        exact ⟨hd1, hd3, hd4⟩
      · show List.foldl (fun a c => 10 * a + digitVal c) 0 [digitChar n] = n
        rw [List.foldl_cons, List.foldl_nil, hd2]
        omega
    · obtain ⟨ih1, ih2, ih3⟩ := ih (n / 10) (Nat.div_lt_self (by omega) (by omega))
      obtain ⟨hd1, hd2, hd3, hd4⟩ := digitChar_spec (n % 10) (Nat.mod_lt _ (by norm_num))
      unfold natDigits
      rw [dif_neg h]
      refine ⟨by simp, ?_, ?_⟩
      · intro c hc
        rcases List.mem_append.mp hc with hc | hc
        · exact ih2 c hc
        · rw [List.mem_singleton] at hc
          subst hc
          exact ⟨hd1, hd3, hd4⟩
      · show List.foldl (fun a c => 10 * a + digitVal c) 0
          (natDigits (n / 10) ++ [digitChar (n % 10)]) = n
        rw [List.foldl_append, List.foldl_cons, List.foldl_nil, hd2]
        have h3 : List.foldl (fun a c => 10 * a + digitVal c) 0 (natDigits (n / 10)) = n / 10 := ih3
        rw [h3]
        omega

theorem natRepr_spec (n : Nat) :
    (natRepr n).data ≠ [] ∧ (natRepr n).data.all isDigitCh = true ∧
    sepChar ∉ (natRepr n).data ∧ '\n' ∉ (natRepr n).data ∧
    natFromDigits (natRepr n).data = n := by
  obtain ⟨h1, h2, h3⟩ := natDigits_spec n
  have hd : (natRepr n).data = natDigits n := rfl
  rw [hd]
  refine ⟨h1, ?_, ?_, ?_, h3⟩
  · rw [List.all_eq_true]
    exact fun c hc => (h2 c hc).1
  · exact fun hc => (h2 _ hc).2.1 rfl
  · exact fun hc => (h2 _ hc).2.2 rfl

theorem pyIntRepr_chars (z : ℤ) :
    sepChar ∉ (pyIntRepr z).data ∧ '\n' ∉ (pyIntRepr z).data := by
  obtain ⟨_, _, h3, h4, _⟩ := natRepr_spec z.natAbs
  unfold pyIntRepr
  by_cases h : z < 0
  · rw [if_pos h, strData_append]
    constructor <;> intro hm <;> rcases List.mem_append.mp hm with hm | hm
    · exact absurd hm (by decide)
    · exact h3 hm
    · exact absurd hm (by decide)
    · exact h4 hm
  · rw [if_neg h]
    exact ⟨h3, h4⟩

theorem pyNumRepr_chars (q : ℚ) :
    sepChar ∉ (pyNumRepr q).data ∧ '\n' ∉ (pyNumRepr q).data := by
  obtain ⟨hi3, hi4⟩ := pyIntRepr_chars q.num
  obtain ⟨_, _, h3, h4, _⟩ := natRepr_spec q.den
  unfold pyNumRepr
  by_cases h : q.den = 1
  · rw [if_pos h]
    exact ⟨hi3, hi4⟩
  · rw [if_neg h, strData_append, strData_append]
    constructor <;> intro hm <;> rcases List.mem_append.mp hm with hm | hm <;>
      [skip; exact h3 hm; skip; exact h4 hm] <;> rcases List.mem_append.mp hm with hm | hm
    · exact hi3 hm
    · exact absurd hm (by decide)
    · exact hi4 hm
    · exact absurd hm (by decide)

theorem pyFloatRepr1_chars (q : ℚ) :
    sepChar ∉ (pyFloatRepr1 q).data ∧ '\n' ∉ (pyFloatRepr1 q).data := by
  obtain ⟨_, _, ha3, ha4, _⟩ := natRepr_spec (⌊q * 10⌋.natAbs / 10)
  obtain ⟨_, _, hb3, hb4, _⟩ := natRepr_spec (⌊q * 10⌋.natAbs % 10)
  show sepChar ∉ ((if ⌊q * 10⌋ < 0 then "-" else "") ++ natRepr (⌊q * 10⌋.natAbs / 10) ++
      "." ++ natRepr (⌊q * 10⌋.natAbs % 10)).data ∧
    '\n' ∉ ((if ⌊q * 10⌋ < 0 then "-" else "") ++ natRepr (⌊q * 10⌋.natAbs / 10) ++
      "." ++ natRepr (⌊q * 10⌋.natAbs % 10)).data
  have hsign : sepChar ∉ (if ⌊q * 10⌋ < 0 then "-" else "").data ∧
      '\n' ∉ (if ⌊q * 10⌋ < 0 then "-" else "").data := by
    by_cases h : ⌊q * 10⌋ < 0
    · rw [if_pos h]; exact ⟨by decide, by decide⟩
    · rw [if_neg h]; exact ⟨by decide, by decide⟩
  rw [strData_append, strData_append, strData_append]
  constructor <;> intro hm <;>
    rcases List.mem_append.mp hm with hm | hm <;>
    [skip; exact hb3 hm; skip; exact hb4 hm] <;>
    rcases List.mem_append.mp hm with hm | hm <;>
    [skip; exact absurd hm (by decide); skip; exact absurd hm (by decide)] <;>
    rcases List.mem_append.mp hm with hm | hm
  · exact hsign.1 hm
  · exact ha3 hm
  · exact hsign.2 hm
  · exact ha4 hm

theorem pyNumRepr_natCast (n : ℕ) : pyNumRepr (n : ℚ) = natRepr n := by
  unfold pyNumRepr
  rw [if_pos (by simp)]
  unfold pyIntRepr
  rw [if_neg (by simp), show ((n : ℚ)).num = (n : ℤ) by simp, Int.natAbs_ofNat]

theorem strRepeat_data_subset (s : String) :
    ∀ (n : Nat), ∀ c ∈ (strRepeat s n).data, c ∈ s.data := by
  intro n
  induction n with
  | zero => intro c hc; exact absurd hc (List.not_mem_nil c)
  | succ k ih =>
    intro c hc
    unfold strRepeat at hc
    rw [List.replicate_succ, strConcat_cons, strData_append] at hc
    rcases List.mem_append.mp hc with hc | hc
    · exact hc
    · exact ih c hc

theorem strRepeat_space_data : ∀ (k : Nat), (strRepeat " " k).data = List.replicate k ' '
  | 0 => rfl
  | k + 1 => by
    unfold strRepeat
    rw [List.replicate_succ, strConcat_cons, strData_append]
    have h := strRepeat_space_data k
    unfold strRepeat at h
    rw [h, List.replicate_succ]
    rfl

theorem padRight_data (s : String) (w : Nat) :
    (padRight s w).data = s.data ++ List.replicate (w - s.length) ' ' := by
  unfold padRight
  rw [strData_append, strRepeat_space_data]

theorem dropWhile_space_replicate (k : Nat) (l : List Char) :
    List.dropWhile (fun c => c == ' ') (List.replicate k ' ' ++ l) =
      List.dropWhile (fun c => c == ' ') l := by
  induction k with
  | zero => rfl
  | succ k ih =>
    rw [List.replicate_succ, List.cons_append, List.dropWhile_cons_of_pos (by decide), ih]

theorem dropTrailSpaces_pad (l : List Char) (k : Nat) :
    dropTrailSpaces (l ++ List.replicate k ' ') = dropTrailSpaces l := by
  unfold dropTrailSpaces
  rw [List.reverse_append, List.reverse_replicate, dropWhile_space_replicate]

theorem bar_chars (a b : Nat) :
    sepChar ∉ (strRepeat barFullC a ++ strRepeat barEmptyC b).data ∧
      '\n' ∉ (strRepeat barFullC a ++ strRepeat barEmptyC b).data := by
  rw [strData_append]
  constructor <;> intro hm <;> rcases List.mem_append.mp hm with hm | hm
  · exact absurd (strRepeat_data_subset _ _ _ hm) (by decide)
  · exact absurd (strRepeat_data_subset _ _ _ hm) (by decide)
  · exact absurd (strRepeat_data_subset _ _ _ hm) (by decide)
  · exact absurd (strRepeat_data_subset _ _ _ hm) (by decide)

theorem parseConfCell_digits (n : Nat) :
    parseConfCell ((natRepr n).data ++ ['%']) = some ((n : ℕ) : ℚ) := by
  obtain ⟨h1, h2, _, _, h5⟩ := natRepr_spec n
  unfold parseConfCell
  rw [List.getLast?_concat]
  show (if ((natRepr n).data ++ ['%']).dropLast ≠ [] ∧
      ((natRepr n).data ++ ['%']).dropLast.all isDigitCh then
      some ((natFromDigits ((natRepr n).data ++ ['%']).dropLast : ℕ) : ℚ) else none) =
    some ((n : ℕ) : ℚ)
  rw [List.dropLast_concat, if_pos ⟨h1, h2⟩, h5]

theorem parseRow_rowMark (rest : List Char) :
    parseRow (rowMark ++ rest) =
      match splitSep rest with
      | [cell1, _, cell3] =>
        match parseConfCell cell3 with
        | some q => some (⟨dropTrailSpaces cell1⟩, q)
        | none => none
      | _ => none := by
  unfold parseRow
  rw [if_pos ((seqPre_iff _ _).mpr ⟨rest, rfl⟩)]
  rfl

theorem parseRow_rowMark_noSep (rest : List Char) (h : sepChar ∉ rest) :
    parseRow (rowMark ++ rest) = none := by
  rw [parseRow_rowMark, splitSep_of_noSep rest h]

theorem parseRow_rowMark_not_contains (rest : List Char)
    (h : containsSeq sepMark rest = false) :
    parseRow (rowMark ++ rest) = none := by
  rw [parseRow_rowMark, splitSep_of_not_contains rest h]

theorem parsedRows_rowMark_noSep (rest : List Char) (h : sepChar ∉ rest) :
    parsedRows (rowMark ++ rest) = [] := by
  obtain ⟨hd, tl, hsl⟩ := splitLines_shape rest
  unfold parsedRows
  rw [splitLines_append_noNl rowMark rest (by decide) hd tl hsl,
    List.filterMap_cons_none]
  · rw [List.filterMap_eq_nil_iff]
    intro li hli
    exact parseRow_none_of_noSep li
      (fun hx => h (mem_of_mem_splitLines rest li (hsl ▸ List.mem_cons_of_mem _ hli) _ hx))
  · exact parseRow_rowMark_noSep hd
      (fun hx => h (mem_of_mem_splitLines rest hd (hsl ▸ List.mem_cons_self _ _) _ hx))

theorem parseConfRows_conf_row (r : ProviderResult) (n : Nat)
    (hc : result_conf r = (n : ℚ))
    (hm : NoSep r.model) (hnl : '\n' ∉ r.model.data)
    (hsp : dropTrailSpaces r.model.data = r.model.data) :
    parseConfRows (conf_row r) = [(r.model, result_conf r)] := by
  show parseConfRows (ln (rowH ++ padRight r.model 12 ++ sepS ++
      (strRepeat barFullC (pyTrunc (result_conf r / 5)).toNat ++
        strRepeat barEmptyC (20 - pyTrunc (result_conf r / 5)).toNat) ++ sepS ++
      pyNumRepr (result_conf r) ++ "%")) = [(r.model, result_conf r)]
  obtain ⟨hb3, hb4⟩ := bar_chars (pyTrunc (result_conf r / 5)).toNat
    (20 - pyTrunc (result_conf r / 5)).toNat
  generalize hbar : strRepeat barFullC (pyTrunc (result_conf r / 5)).toNat ++
    strRepeat barEmptyC (20 - pyTrunc (result_conf r / 5)).toNat = bar at hb3 hb4 ⊢
  rw [hc, pyNumRepr_natCast, parseConfRows_ln]
  have hdata : (rowH ++ padRight r.model 12 ++ sepS ++ bar ++ sepS ++ natRepr n ++ "%").data =
      rowMark ++ ((padRight r.model 12).data ++ (sepMark ++ (bar.data ++
        (sepMark ++ ((natRepr n).data ++ ['%']))))) := by
    simp only [strData_append, List.append_assoc]
    rfl
  obtain ⟨_, _, hn3, hn4, _⟩ := natRepr_spec n
  have hpad3 : sepChar ∉ (padRight r.model 12).data := by
    rw [padRight_data]
    intro hx
    rcases List.mem_append.mp hx with hx | hx
    · exact hm hx
    · exact absurd (List.eq_of_mem_replicate hx) (by decide)
  have hpad4 : '\n' ∉ (padRight r.model 12).data := by
    rw [padRight_data]
    intro hx
    rcases List.mem_append.mp hx with hx | hx
    · exact hnl hx
    · exact absurd (List.eq_of_mem_replicate hx) (by decide)
  have hcell3 : sepChar ∉ (natRepr n).data ++ ['%'] := by
    intro hx
    rcases List.mem_append.mp hx with hx | hx
    · exact hn3 hx
    · exact absurd hx (by decide)
  have hrow : parseRow (rowMark ++ ((padRight r.model 12).data ++ (sepMark ++ (bar.data ++
      (sepMark ++ ((natRepr n).data ++ ['%'])))))) = some (r.model, ((n : ℕ) : ℚ)) := by
    rw [parseRow_rowMark, splitSep_sep_append _ _ hpad3, splitSep_sep_append _ _ hb3,
      splitSep_of_noSep _ hcell3]
    show (match parseConfCell ((natRepr n).data ++ ['%']) with
      | some q => some ((⟨dropTrailSpaces (padRight r.model 12).data⟩ : String), q)
      | none => none) = some (r.model, ((n : ℕ) : ℚ))
    rw [parseConfCell_digits]
    show some ((⟨dropTrailSpaces (padRight r.model 12).data⟩ : String), ((n : ℕ) : ℚ)) =
      some (r.model, ((n : ℕ) : ℚ))
    rw [padRight_data, dropTrailSpaces_pad, hsp]
  have hnone : '\n' ∉ (rowH ++ padRight r.model 12 ++ sepS ++ bar ++ sepS ++
      natRepr n ++ "%").data := by
    rw [hdata]
    intro hx
    rcases List.mem_append.mp hx with hx | hx
    · exact absurd hx (by decide)
    rcases List.mem_append.mp hx with hx | hx
    · exact hpad4 hx
    rcases List.mem_append.mp hx with hx | hx
    · exact absurd hx (by decide)
    rcases List.mem_append.mp hx with hx | hx
    · exact hb4 hx
    rcases List.mem_append.mp hx with hx | hx
    · exact absurd hx (by decide)
    rcases List.mem_append.mp hx with hx | hx
    · exact hn4 hx
    · exact absurd hx (by decide)
  unfold parsedRows
  rw [splitLines_noNl _ hnone, List.filterMap_cons, hdata, hrow]
  rfl

theorem nlTerm_ln (s : String) : NlTerm (ln s) := by
  right
  rw [lnData, List.getLast?_concat]

theorem nlTerm_empty : NlTerm "" := Or.inl rfl

theorem nlTerm_append (a b : String) (ha : NlTerm a) (hb : NlTerm b) : NlTerm (a ++ b) := by
  rcases hb with hb | hb
  · rcases ha with ha | ha
    · left; rw [strData_append, ha, hb]; rfl
    · right; rw [strData_append, hb, List.append_nil, ha]
  · right
    rw [strData_append, List.getLast?_append_of_ne_nil, hb]
    intro he
    rw [he] at hb
    exact nomatch hb

theorem nlTerm_ite (c : Prop) [Decidable c] (a b : String) (ha : NlTerm a) (hb : NlTerm b) :
    NlTerm (if c then a else b) := by
  by_cases h : c
  · rw [if_pos h]; exact ha
  · rw [if_neg h]; exact hb

theorem nlTerm_strConcat (l : List String) (h : ∀ s ∈ l, NlTerm s) : NlTerm (strConcat l) := by
  induction l with
  | nil => exact nlTerm_empty
  | cons x xs ih =>
    rw [strConcat_cons]
    exact nlTerm_append _ _ (h x (List.mem_cons_self _ _))
      (ih (fun s hs => h s (List.mem_cons_of_mem _ hs)))

theorem parseConfRows_empty : parseConfRows "" = [] := by decide

theorem parseConfRows_append (s t : String) (h : NlTerm s) :
    parseConfRows (s ++ t) = parseConfRows s ++ parseConfRows t := by
  rcases h with h | h
  · unfold parseConfRows
    rw [strData_append, h, List.nil_append, parsedRows_nil, List.nil_append]
  · have hne : s.data ≠ [] := by
      intro he
      rw [he] at h
      exact nomatch h
    obtain ⟨init, hinit⟩ := List.getLast?_eq_some_iff.mp h
    unfold parseConfRows
    rw [strData_append, hinit, List.append_assoc]
    show parsedRows (init ++ '\n' :: t.data) = parsedRows (init ++ ['\n']) ++ parsedRows t.data
    rw [parsedRows_append_nl, show (['\n'] : List Char) = '\n' :: [] from rfl,
      parsedRows_append_nl, parsedRows_nil, List.append_nil]

theorem parseConfRows_strConcat (l : List String) (h : ∀ s ∈ l, NlTerm s) :
    parseConfRows (strConcat l) = (l.map parseConfRows).flatten := by
  induction l with
  | nil => exact parseConfRows_empty
  | cons x xs ih =>
    rw [strConcat_cons, parseConfRows_append _ _ (h x (List.mem_cons_self _ _)),
      List.map_cons, List.flatten_cons, ih (fun s hs => h s (List.mem_cons_of_mem _ hs))]

theorem parsedRows_head4 (a t : List Char) (h4 : 4 ≤ a.length)
    (hseq : seqPre rowMark a = false) (hnl : '\n' ∉ a ++ t) : parsedRows (a ++ t) = [] :=
  parsedRows_single_reject _ hnl (parseRow_none_of_head4 a t h4 hseq)

theorem parseConfRows_ln_flat (s : String) (hnl : '\n' ∉ s.data)
    (h : parseRow s.data = none) : parseConfRows (ln s) = [] := by
  rw [parseConfRows_ln]
  exact parsedRows_single_reject _ hnl h

theorem parseConfRows_ln_boxline (s : String) (hnl : '\n' ∉ s.data)
    (h : containsSeq sepMark (s.data.drop 4) = false)
    (hpre : s.data = rowMark ++ s.data.drop 4) :
    parseConfRows (ln s) = [] := by
  rw [parseConfRows_ln]
  refine parsedRows_single_reject _ hnl ?_
  rw [hpre]
  exact parseRow_rowMark_not_contains _ h

theorem parseConfRows_answer_block (r : ProviderResult)
    (hnlm : '\n' ∉ r.model.data) (hans : NoSep (r.answer.getD "No response")) :
    parseConfRows (answer_block r) = [] := by
  show parseConfRows (ln "" ++ ln (ansHeadA ++ r.model ++ ansHeadB) ++
      ln (rowH ++ (r.answer.getD "No response").take 400 ++
        (if (r.answer.getD "No response").length > 400 then "..." else "")) ++
      ln ansFootC) = []
  rw [parseConfRows_append _ _ (nlTerm_append _ _
      (nlTerm_append _ _ (nlTerm_ln _) (nlTerm_ln _)) (nlTerm_ln _)),
    parseConfRows_append _ _ (nlTerm_append _ _ (nlTerm_ln _) (nlTerm_ln _)),
    parseConfRows_append _ _ (nlTerm_ln _)]
  have k1 : parseConfRows (ln "") = [] := by decide
  have k2 : parseConfRows (ln (ansHeadA ++ r.model ++ ansHeadB)) = [] := by
    rw [parseConfRows_ln]
    have hd : (ansHeadA ++ r.model ++ ansHeadB).data =
        ['â', '”', 'Œ', 'â'] ++ (['”', '€', ' '] ++ (r.model.data ++ ansHeadB.data)) := by
      simp only [strData_append, List.append_assoc]
      rfl
    rw [hd]
    refine parsedRows_head4 _ _ (by decide) (by decide) ?_
    intro hx
    rcases List.mem_append.mp hx with hx | hx
    · exact absurd hx (by decide)
    rcases List.mem_append.mp hx with hx | hx
    · exact absurd hx (by decide)
    rcases List.mem_append.mp hx with hx | hx
    · exact hnlm hx
    · exact absurd hx (by decide)
  have k3 : parseConfRows (ln (rowH ++ (r.answer.getD "No response").take 400 ++
      (if (r.answer.getD "No response").length > 400 then "..." else ""))) = [] := by
    rw [parseConfRows_ln]
    have hd : (rowH ++ (r.answer.getD "No response").take 400 ++
        (if (r.answer.getD "No response").length > 400 then "..." else "")).data =
        rowMark ++ (((r.answer.getD "No response").take 400).data ++
          (if (r.answer.getD "No response").length > 400 then "..." else "").data) := by
      simp only [strData_append, List.append_assoc]
      rfl
    rw [hd]
    apply parsedRows_rowMark_noSep
    intro hx
    rcases List.mem_append.mp hx with hx | hx
    · rw [String.data_take] at hx
      exact hans (List.take_subset _ _ hx)
    · by_cases hl : (r.answer.getD "No response").length > 400
      · rw [if_pos hl] at hx
        exact absurd hx (by decide)
      · rw [if_neg hl] at hx
        exact absurd hx (by decide)
  have k4 : parseConfRows (ln ansFootC) = [] :=
    parseConfRows_ln_flat _ (by decide) (by decide)
  rw [k1, k2, k3, k4]
  rfl

theorem noNl_risk_indicator (risk : String) (h : '\n' ∉ risk.data) :
    '\n' ∉ (risk_indicator_get risk).data := by
  unfold risk_indicator_get
  by_cases h1 : risk = "VERY_HIGH"
  · rw [if_pos h1]; exact by decide
  rw [if_neg h1]
  by_cases h2 : risk = "HIGH"
  · rw [if_pos h2]; exact by decide
  rw [if_neg h2]
  by_cases h3 : risk = "MEDIUM"
  · rw [if_pos h3]; exact by decide
  rw [if_neg h3]
  by_cases h4 : risk = "LOW"
  · rw [if_pos h4]; exact by decide
  rw [if_neg h4]
  exact h

theorem noSep_strJoinSep (l : List String) (h : ∀ m ∈ l, NoSep m) :
    sepChar ∉ (strJoinSep ", " l).data := by
  match l with
  | [] => exact by decide
  | [x] => exact h x (List.mem_singleton.mpr rfl)
  | x :: y :: xs =>
    show sepChar ∉ (x ++ ", " ++ strJoinSep ", " (y :: xs)).data
    rw [strData_append, strData_append]
    intro hx
    rcases List.mem_append.mp hx with hx | hx
    · rcases List.mem_append.mp hx with hx | hx
      · exact h x (List.mem_cons_self _ _) hx
      · exact absurd hx (by decide)
    · exact noSep_strJoinSep (y :: xs) (fun m hm => h m (List.mem_cons_of_mem _ hm)) hx

theorem noSep_optionMap_getD (o : Option Consensus) (f : Consensus → String) (d : String)
    (hf : ∀ c, sepChar ∉ (f c).data) (hd : sepChar ∉ d.data) :
    sepChar ∉ ((o.map f).getD d).data := by
  cases o with
  | none => exact hd
  | some c => exact hf c

theorem noSep_audit_field (r : ProviderResult) (f : Audit → String)
    (h : ∀ a, r.audit = some a → NoSep (f a)) : NoSep (audit_field r f) := by
  unfold audit_field
  cases ha : r.audit with
  | none => exact (show sepChar ∉ ("N/A").data by decide)
  | some a => exact h a ha

theorem noSep_result_concern (r : ProviderResult)
    (h : ∀ a, r.audit = some a → NoSep a.what_might_be_wrong) :
    NoSep (result_concern r) := by
  unfold result_concern
  cases ha : r.audit with
  | none => exact (show sepChar ∉ ("").data by decide)
  | some a => exact h a ha

theorem nlTerm_answer_block (r : ProviderResult) : NlTerm (answer_block r) := by
  show NlTerm (ln "" ++ ln (ansHeadA ++ r.model ++ ansHeadB) ++
    ln (rowH ++ (r.answer.getD "No response").take 400 ++
      (if (r.answer.getD "No response").length > 400 then "..." else "")) ++ ln ansFootC)
  exact nlTerm_append _ _ (nlTerm_append _ _ (nlTerm_append _ _ (nlTerm_ln _)
    (nlTerm_ln _)) (nlTerm_ln _)) (nlTerm_ln _)

theorem nlTerm_conf_row (r : ProviderResult) : NlTerm (conf_row r) := by
  show NlTerm (ln (rowH ++ padRight r.model 12 ++ sepS ++
    (strRepeat barFullC (pyTrunc (result_conf r / 5)).toNat ++
      strRepeat barEmptyC (20 - pyTrunc (result_conf r / 5)).toNat) ++ sepS ++
    pyNumRepr (result_conf r) ++ "%"))
  exact nlTerm_ln _

theorem nlTerm_concern_line (p : Nat × String) : NlTerm (concern_line p) := nlTerm_ln _

theorem nlTerm_answer_blocks (l : List ProviderResult) :
    NlTerm (strConcat (l.map answer_block)) := by
  refine nlTerm_strConcat _ ?_
  intro s hs
  obtain ⟨r, _, rfl⟩ := List.mem_map.mp hs
  exact nlTerm_answer_block r

theorem nlTerm_conf_rows (l : List ProviderResult) :
    NlTerm (strConcat (l.map conf_row)) := by
  refine nlTerm_strConcat _ ?_
  intro s hs
  obtain ⟨r, _, rfl⟩ := List.mem_map.mp hs
  exact nlTerm_conf_row r

theorem nlTerm_concern_lines (l : List (Nat × String)) :
    NlTerm (strConcat (l.map concern_line)) := by
  refine nlTerm_strConcat _ ?_
  intro s hs
  obtain ⟨p, _, rfl⟩ := List.mem_map.mp hs
  exact nlTerm_concern_line p

theorem parseConfRows_answer_blocks (l : List ProviderResult)
    (h7 : ∀ r ∈ l, '\n' ∉ r.model.data)
    (h8 : ∀ r ∈ l, NoSep (r.answer.getD "No response")) :
    parseConfRows (strConcat (l.map answer_block)) = [] := by
  induction l with
  | nil => exact parseConfRows_empty
  | cons x xs ih =>
    rw [List.map_cons, strConcat_cons, parseConfRows_append _ _ (nlTerm_answer_block x),
      parseConfRows_answer_block x (h7 x (List.mem_cons_self _ _))
        (h8 x (List.mem_cons_self _ _)),
      ih (fun r hr => h7 r (List.mem_cons_of_mem _ hr))
        (fun r hr => h8 r (List.mem_cons_of_mem _ hr))]
    rfl

theorem parseConfRows_conf_rows (l : List ProviderResult) :
    parseConfRows (strConcat (l.map conf_row)) =
      (l.map (fun r => parseConfRows (conf_row r))).flatten := by
  rw [parseConfRows_strConcat _ (fun s hs => by
    obtain ⟨r, _, rfl⟩ := List.mem_map.mp hs
    exact nlTerm_conf_row r), List.map_map]
  rfl

theorem parseConfRows_concern_line (p : Nat × String) (h : NoSep p.2) :
    parseConfRows (concern_line p) = [] := by
  show parseConfRows (ln (rowH ++ pyIntRepr ((p.1 : ℤ) + 1) ++ ". " ++ p.2.take 60 ++ "...")) = []
  rw [parseConfRows_ln]
  have hd : (rowH ++ pyIntRepr ((p.1 : ℤ) + 1) ++ ". " ++ p.2.take 60 ++ "...").data =
      rowMark ++ ((pyIntRepr ((p.1 : ℤ) + 1)).data ++ ((". ").data ++
        ((p.2.take 60).data ++ ("...").data))) := by
    simp only [strData_append, List.append_assoc]
    rfl
  rw [hd]
  apply parsedRows_rowMark_noSep
  intro hx
  rcases List.mem_append.mp hx with hx | hx
  · exact (pyIntRepr_chars _).1 hx
  rcases List.mem_append.mp hx with hx | hx
  · exact absurd hx (by decide)
  rcases List.mem_append.mp hx with hx | hx
  · rw [String.data_take] at hx
    exact h (List.take_subset _ _ hx)
  · exact absurd hx (by decide)

theorem parseConfRows_concern_lines (l : List (Nat × String)) (h : ∀ p ∈ l, NoSep p.2) :
    parseConfRows (strConcat (l.map concern_line)) = [] := by
  induction l with
  | nil => exact parseConfRows_empty
  | cons x xs ih =>
    rw [List.map_cons, strConcat_cons, parseConfRows_append _ _ (nlTerm_concern_line x),
      parseConfRows_concern_line x (h x (List.mem_cons_self _ _)),
      ih (fun p hp => h p (List.mem_cons_of_mem _ hp))]
    rfl

theorem concerns_of_go (results : List ProviderResult) :
    ∀ (acc : List String) (c : String),
      c ∈ results.foldl
        (fun concerns r =>
          let concern := result_concern r
          if concern ≠ "" ∧ concern ∉ concerns then concerns ++ [concern] else concerns)
        acc →
      c ∈ acc ∨ ∃ r ∈ results, c = result_concern r := by
  induction results with
  | nil => exact fun acc c h => Or.inl h
  | cons x xs ih =>
    intro acc c h
    rw [List.foldl_cons] at h
    rcases ih _ c h with h' | h'
    · by_cases hx : result_concern x ≠ "" ∧ result_concern x ∉ acc
      · rw [show (let concern := result_concern x;
            if concern ≠ "" ∧ concern ∉ acc then acc ++ [concern] else acc) =
            acc ++ [result_concern x] from if_pos hx] at h'
        rcases List.mem_append.mp h' with h'' | h''
        · exact Or.inl h''
        · rw [List.mem_singleton] at h''
          exact Or.inr ⟨x, List.mem_cons_self _ _, h''⟩
      · rw [show (let concern := result_concern x;
            if concern ≠ "" ∧ concern ∉ acc then acc ++ [concern] else acc) =
            acc from if_neg hx] at h'
        exact Or.inl h'
    · obtain ⟨r, hr, hc⟩ := h'
      exact Or.inr ⟨r, List.mem_cons_of_mem _ hr, hc⟩

theorem concerns_of_mem (results : List ProviderResult) :
    ∀ c ∈ concerns_of results, ∃ r ∈ results, c = result_concern r := by
  intro c h
  rcases concerns_of_go results [] c h with h' | h'
  · exact absurd h' (List.not_mem_nil c)
  · exact h'

theorem best_result_fold_mem (l : List ProviderResult) :
    ∀ (acc : ProviderResult) (S : List ProviderResult), acc ∈ S → (∀ a ∈ l, a ∈ S) →
      l.foldl (fun b a => if result_conf a > result_conf b then a else b) acc ∈ S := by
  induction l with
  | nil => exact fun acc S hacc _ => hacc
  | cons x xs ih =>
    intro acc S hacc hl
    rw [List.foldl_cons]
    refine ih _ S ?_ (fun a ha => hl a (List.mem_cons_of_mem _ ha))
    by_cases hx : result_conf x > result_conf acc
    · rw [if_pos hx]; exact hl x (List.mem_cons_self _ _)
    · rw [if_neg hx]; exact hacc

theorem best_result_mem (results : List ProviderResult) (h : results ≠ []) :
    best_result_of results ∈ results := by
  match results with
  | x :: xs =>
    show xs.foldl (fun b a => if result_conf a > result_conf b then a else b) x ∈ x :: xs
    exact best_result_fold_mem xs x (x :: xs) (List.mem_cons_self _ _)
      (fun a ha => List.mem_cons_of_mem _ ha)

theorem pcrl_empty : parseConfRows (ln "") = [] := by decide

theorem pcrl_eq70 : parseConfRows (ln eq70) = [] :=
  parseConfRows_ln_flat _ (by decide) (by decide)

theorem pcrl_yourQ : parseConfRows (ln ">>> YOUR QUESTION:") = [] :=
  parseConfRows_ln_flat _ (by decide) (by decide)

theorem pcrl_respHdr : parseConfRows (ln respHdrC) = [] :=
  parseConfRows_ln_flat _ (by decide) (by decide)

theorem pcrl_analysisHdr : parseConfRows (ln analysisHdrC) = [] :=
  parseConfRows_ln_flat _ (by decide) (by decide)

theorem pcrl_consHead : parseConfRows (ln consHeadC) = [] :=
  parseConfRows_ln_flat _ (by decide) (by decide)

theorem pcrl_boxFoot : parseConfRows (ln boxFootC) = [] :=
  parseConfRows_ln_flat _ (by decide) (by decide)

theorem pcrl_tabHead : parseConfRows (ln tabHeadC) = [] :=
  parseConfRows_ln_flat _ (by decide) (by decide)

theorem pcrl_aggHead : parseConfRows (ln aggHeadC) = [] :=
  parseConfRows_ln_flat _ (by decide) (by decide)

theorem pcrl_recHead : parseConfRows (ln recHeadC) = [] :=
  parseConfRows_ln_flat _ (by decide) (by decide)

theorem pcrl_genBy : parseConfRows (ln genByC) = [] :=
  parseConfRows_ln_flat _ (by decide) (by decide)

theorem pcrl_medL1 : parseConfRows (ln medL1) = [] :=
  parseConfRows_ln_flat _ (by decide) (by decide)

theorem pcrl_medL6 : parseConfRows (ln medL6) = [] :=
  parseConfRows_ln_flat _ (by decide) (by decide)

theorem pcrl_legL1 : parseConfRows (ln legL1) = [] :=
  parseConfRows_ln_flat _ (by decide) (by decide)

theorem pcrl_legL6 : parseConfRows (ln legL6) = [] :=
  parseConfRows_ln_flat _ (by decide) (by decide)

theorem pcrl_wrong : parseConfRows (ln "[ What Might Be Wrong ]") = [] :=
  parseConfRows_ln_flat _ (by decide) (by decide)

theorem pcrl_missing : parseConfRows (ln "[ Missing Information ]") = [] :=
  parseConfRows_ln_flat _ (by decide) (by decide)

theorem pcrl_altI : parseConfRows (ln "[ Alternative Interpretations ]") = [] :=
  parseConfRows_ln_flat _ (by decide) (by decide)

theorem pcrl_riskI : parseConfRows (ln "[ Risk If Incorrect ]") = [] :=
  parseConfRows_ln_flat _ (by decide) (by decide)

theorem pcrl_ccHigh : parseConfRows (ln ccHighC) = [] :=
  parseConfRows_ln_boxline _ (by decide) (by decide) (by decide)

theorem pcrl_ccMod : parseConfRows (ln ccModC) = [] :=
  parseConfRows_ln_boxline _ (by decide) (by decide) (by decide)

theorem pcrl_ccLow : parseConfRows (ln ccLowC) = [] :=
  parseConfRows_ln_boxline _ (by decide) (by decide) (by decide)

theorem pcrl_concernsHdr : parseConfRows (ln concernsHdrC) = [] :=
  parseConfRows_ln_boxline _ (by decide) (by decide) (by decide)

theorem pcrl_medL2 : parseConfRows (ln medL2) = [] :=
  parseConfRows_ln_boxline _ (by decide) (by decide) (by decide)

theorem pcrl_medL3 : parseConfRows (ln medL3) = [] :=
  parseConfRows_ln_boxline _ (by decide) (by decide) (by decide)

theorem pcrl_medL4 : parseConfRows (ln medL4) = [] :=
  parseConfRows_ln_boxline _ (by decide) (by decide) (by decide)

theorem pcrl_medL5 : parseConfRows (ln medL5) = [] :=
  parseConfRows_ln_boxline _ (by decide) (by decide) (by decide)

theorem pcrl_legL2 : parseConfRows (ln legL2) = [] :=
  parseConfRows_ln_boxline _ (by decide) (by decide) (by decide)

theorem pcrl_legL3 : parseConfRows (ln legL3) = [] :=
  parseConfRows_ln_boxline _ (by decide) (by decide) (by decide)

theorem pcrl_legL4 : parseConfRows (ln legL4) = [] :=
  parseConfRows_ln_boxline _ (by decide) (by decide) (by decide)

theorem pcrl_legL5 : parseConfRows (ln legL5) = [] :=
  parseConfRows_ln_boxline _ (by decide) (by decide) (by decide)

theorem pcrl_recLow1 : parseConfRows (ln recLowC1) = [] :=
  parseConfRows_ln_boxline _ (by decide) (by decide) (by decide)

theorem pcrl_recLow2 : parseConfRows (ln recLowC2) = [] :=
  parseConfRows_ln_boxline _ (by decide) (by decide) (by decide)

theorem pcrl_recLow3 : parseConfRows (ln recLowC3) = [] :=
  parseConfRows_ln_boxline _ (by decide) (by decide) (by decide)

theorem pcrl_recLow4 : parseConfRows (ln recLowC4) = [] :=
  parseConfRows_ln_boxline _ (by decide) (by decide) (by decide)

theorem pcrl_recMod1 : parseConfRows (ln recModC1) = [] :=
  parseConfRows_ln_boxline _ (by decide) (by decide) (by decide)

theorem pcrl_recMod2 : parseConfRows (ln recModC2) = [] :=
  parseConfRows_ln_boxline _ (by decide) (by decide) (by decide)

theorem pcrl_recMod3 : parseConfRows (ln recModC3) = [] :=
  parseConfRows_ln_boxline _ (by decide) (by decide) (by decide)

theorem pcrl_recMod4 : parseConfRows (ln recModC4) = [] :=
  parseConfRows_ln_boxline _ (by decide) (by decide) (by decide)

theorem pcrl_recHigh1 : parseConfRows (ln recHighC1) = [] :=
  parseConfRows_ln_boxline _ (by decide) (by decide) (by decide)

theorem pcrl_recHigh2 : parseConfRows (ln recHighC2) = [] :=
  parseConfRows_ln_boxline _ (by decide) (by decide) (by decide)

theorem pcrl_recHigh3 : parseConfRows (ln recHighC3) = [] :=
  parseConfRows_ln_boxline _ (by decide) (by decide) (by decide)

theorem pcrl_recHigh4 : parseConfRows (ln recHighC4) = [] :=
  parseConfRows_ln_boxline _ (by decide) (by decide) (by decide)

theorem pcrl_spread1 : parseConfRows (ln spreadWarnC1) = [] :=
  parseConfRows_ln_boxline _ (by decide) (by decide) (by decide)

theorem pcrl_spread2 : parseConfRows (ln spreadWarnC2) = [] :=
  parseConfRows_ln_boxline _ (by decide) (by decide) (by decide)

theorem pcrl_spread3 : parseConfRows (ln spreadWarnC3) = [] :=
  parseConfRows_ln_boxline _ (by decide) (by decide) (by decide)

theorem parseConfRows_ln_row_pre2 (pre mid : String)
    (hpre : pre.data = rowMark ++ pre.data.drop 4)
    (h1 : sepChar ∉ pre.data.drop 4) (h2 : sepChar ∉ mid.data) :
    parseConfRows (ln (pre ++ mid)) = [] := by
  rw [parseConfRows_ln]
  have hd : (pre ++ mid).data = rowMark ++ (pre.data.drop 4 ++ mid.data) := by
    rw [strData_append]
    conv_lhs => rw [hpre]
    rw [List.append_assoc]
  rw [hd]
  apply parsedRows_rowMark_noSep
  intro hx
  rcases List.mem_append.mp hx with hx | hx
  · exact h1 hx
  · exact h2 hx

theorem parseConfRows_ln_row_pre3 (pre mid suf : String)
    (hpre : pre.data = rowMark ++ pre.data.drop 4)
    (h1 : sepChar ∉ pre.data.drop 4) (h2 : sepChar ∉ mid.data) (h3 : sepChar ∉ suf.data) :
    parseConfRows (ln (pre ++ (mid ++ suf))) = [] := by
  rw [parseConfRows_ln]
  have hd : (pre ++ (mid ++ suf)).data =
      rowMark ++ (pre.data.drop 4 ++ (mid.data ++ suf.data)) := by
    rw [strData_append, strData_append]
    conv_lhs => rw [hpre]
    rw [List.append_assoc]
  rw [hd]
  apply parsedRows_rowMark_noSep
  intro hx
  rcases List.mem_append.mp hx with hx | hx
  · exact h1 hx
  rcases List.mem_append.mp hx with hx | hx
  · exact h2 hx
  · exact h3 hx

theorem pcrl_warn (q : ℚ) : parseConfRows (ln (warnAC ++ (pyNumRepr q ++ warnBC))) = [] :=
  parseConfRows_ln_row_pre3 _ _ _ (by decide) (by decide) (pyNumRepr_chars q).1 (by decide)

theorem pcrl_range (x y z : ℚ) : parseConfRows (ln (rangePreC ++ (pyNumRepr x ++ ("% - " ++
    (pyNumRepr y ++ ("% (spread: " ++ (pyNumRepr z ++ "%)"))))))) = [] := by
  rw [parseConfRows_ln]
  have hd : (rangePreC ++ (pyNumRepr x ++ ("% - " ++ (pyNumRepr y ++ ("% (spread: " ++
      (pyNumRepr z ++ "%)")))))).data = rowMark ++ (("Range: ").data ++ ((pyNumRepr x).data ++
      (("% - ").data ++ ((pyNumRepr y).data ++ (("% (spread: ").data ++
      ((pyNumRepr z).data ++ ("%)").data)))))) := by
    simp only [strData_append, List.append_assoc]
    rfl
  rw [hd]
  apply parsedRows_rowMark_noSep
  intro hx
  rcases List.mem_append.mp hx with hx | hx
  · exact absurd hx (by decide)
  rcases List.mem_append.mp hx with hx | hx
  · exact (pyNumRepr_chars x).1 hx
  rcases List.mem_append.mp hx with hx | hx
  · exact absurd hx (by decide)
  rcases List.mem_append.mp hx with hx | hx
  · exact (pyNumRepr_chars y).1 hx
  rcases List.mem_append.mp hx with hx | hx
  · exact absurd hx (by decide)
  rcases List.mem_append.mp hx with hx | hx
  · exact (pyNumRepr_chars z).1 hx
  · exact absurd hx (by decide)

theorem pcrl_ascii_pre (pre s : String)
    (hs : sepChar ∉ pre.data) (h : NoSep s) :
    parseConfRows (ln (pre ++ s)) = [] := by
  rw [parseConfRows_ln, strData_append]
  apply parsedRows_of_noSep
  intro hx
  rcases List.mem_append.mp hx with hx | hx
  · exact hs hx
  · exact h hx

theorem nlTerm_chain_med : NlTerm (ln "" ++ (ln medL1 ++ (ln medL2 ++ (ln medL3 ++
    (ln medL4 ++ (ln medL5 ++ ln medL6)))))) :=
  nlTerm_append _ _ (nlTerm_ln _) (nlTerm_append _ _ (nlTerm_ln _) (nlTerm_append _ _
    (nlTerm_ln _) (nlTerm_append _ _ (nlTerm_ln _) (nlTerm_append _ _ (nlTerm_ln _)
      (nlTerm_append _ _ (nlTerm_ln _) (nlTerm_ln _))))))

theorem nlTerm_chain_leg : NlTerm (ln "" ++ (ln legL1 ++ (ln legL2 ++ (ln legL3 ++
    (ln legL4 ++ (ln legL5 ++ ln legL6)))))) :=
  nlTerm_append _ _ (nlTerm_ln _) (nlTerm_append _ _ (nlTerm_ln _) (nlTerm_append _ _
    (nlTerm_ln _) (nlTerm_append _ _ (nlTerm_ln _) (nlTerm_append _ _ (nlTerm_ln _)
      (nlTerm_append _ _ (nlTerm_ln _) (nlTerm_ln _))))))

theorem nlTerm_chain_recLow : NlTerm (ln recLowC1 ++ (ln recLowC2 ++ (ln recLowC3 ++
    ln recLowC4))) :=
  nlTerm_append _ _ (nlTerm_ln _) (nlTerm_append _ _ (nlTerm_ln _)
    (nlTerm_append _ _ (nlTerm_ln _) (nlTerm_ln _)))

theorem nlTerm_chain_recMod : NlTerm (ln recModC1 ++ (ln recModC2 ++ (ln recModC3 ++
    ln recModC4))) :=
  nlTerm_append _ _ (nlTerm_ln _) (nlTerm_append _ _ (nlTerm_ln _)
    (nlTerm_append _ _ (nlTerm_ln _) (nlTerm_ln _)))

theorem nlTerm_chain_recHigh : NlTerm (ln recHighC1 ++ (ln recHighC2 ++ (ln recHighC3 ++
    ln recHighC4))) :=
  nlTerm_append _ _ (nlTerm_ln _) (nlTerm_append _ _ (nlTerm_ln _)
    (nlTerm_append _ _ (nlTerm_ln _) (nlTerm_ln _)))

theorem nlTerm_chain_spread : NlTerm (ln spreadWarnC1 ++ (ln spreadWarnC2 ++ ln spreadWarnC3)) :=
  nlTerm_append _ _ (nlTerm_ln _) (nlTerm_append _ _ (nlTerm_ln _) (nlTerm_ln _))

theorem nlTerm_chain_concern (l : List (Nat × String)) :
    NlTerm (ln concernsHdrC ++ strConcat (l.map concern_line)) :=
  nlTerm_append _ _ (nlTerm_ln _) (nlTerm_concern_lines l)

theorem nlTerm_ite3 (c1 c2 : Prop) [Decidable c1] [Decidable c2] (a b d : String)
    (ha : NlTerm a) (hb : NlTerm b) (hd : NlTerm d) :
    NlTerm (if c1 then a else if c2 then b else d) :=
  nlTerm_ite _ _ _ ha (nlTerm_ite _ _ _ hb hd)

set_option maxHeartbeats 3200000 in
theorem parseConfRows_report (question : String) (mmd : MultiModelData) (di : DomainInfo)
    (hq : NoSep question)
    (hmu : ∀ m ∈ mmd.models_used, NoSep m)
    (hdom : NoSep di.domain)
    (hemo : '\n' ∉ di.emoji.data)
    (hrisk : '\n' ∉ di.risk.data)
    (hagr : ∀ c, mmd.consensus = some c → NoSep c.agreement_level)
    (h7 : ∀ r ∈ mmd.results, '\n' ∉ r.model.data)
    (h8 : ∀ r ∈ mmd.results, NoSep (r.answer.getD "No response"))
    (h9 : ∀ r ∈ mmd.results, ∀ a, r.audit = some a →
      NoSep a.what_might_be_wrong ∧ NoSep a.uncertainty_areas ∧
      NoSep a.alternative_interpretation ∧ NoSep a.risk_if_incorrect) :
    parseConfRows (format_multi_model_report question mmd di) =
      (mmd.results.map (fun r => parseConfRows (conf_row r))).flatten := by
  have khdr : parseConfRows (ln ("     " ++ (di.emoji ++ (hdrMidC ++ di.emoji)))) = [] := by
    rw [parseConfRows_ln]
    have hd : ("     " ++ (di.emoji ++ (hdrMidC ++ di.emoji))).data =
        [' ', ' ', ' ', ' '] ++ ([' '] ++ (di.emoji.data ++ (hdrMidC.data ++ di.emoji.data))) := by
      simp only [strData_append, List.append_assoc]
      rfl
    rw [hd]
    refine parsedRows_head4 _ _ (by decide) (by decide) ?_
    intro hx
    rcases List.mem_append.mp hx with hx | hx
    · exact absurd hx (by decide)
    rcases List.mem_append.mp hx with hx | hx
    · exact absurd hx (by decide)
    rcases List.mem_append.mp hx with hx | hx
    · exact hemo hx
    rcases List.mem_append.mp hx with hx | hx
    · exact absurd hx (by decide)
    · exact hemo hx
  have kdom : parseConfRows (ln ("DOMAIN DETECTED: " ++ di.domain)) = [] :=
    pcrl_ascii_pre _ _ (by decide) hdom
  have krisk : parseConfRows (ln ("RISK LEVEL: " ++ risk_indicator_get di.risk)) = [] := by
    rw [parseConfRows_ln]
    have hd : ("RISK LEVEL: " ++ risk_indicator_get di.risk).data =
        ['R', 'I', 'S', 'K'] ++ ((" LEVEL: ").data ++ (risk_indicator_get di.risk).data) := by
      simp only [strData_append, List.append_assoc]
      rfl
    rw [hd]
    refine parsedRows_head4 _ _ (by decide) (by decide) ?_
    intro hx
    rcases List.mem_append.mp hx with hx | hx
    · exact absurd hx (by decide)
    rcases List.mem_append.mp hx with hx | hx
    · exact absurd hx (by decide)
    · exact noNl_risk_indicator di.risk hrisk hx
  have kmod : parseConfRows (ln ("MODELS ANALYZED: " ++ strJoinSep ", " mmd.models_used)) = [] :=
    pcrl_ascii_pre _ _ (by decide) (noSep_strJoinSep _ hmu)
  have kpow : parseConfRows (ln ("Powered by: " ++ strJoinSep ", " mmd.models_used)) = [] :=
    pcrl_ascii_pre _ _ (by decide) (noSep_strJoinSep _ hmu)
  have kq : parseConfRows (ln question) = [] := by
    rw [parseConfRows_ln]
    exact parsedRows_of_noSep _ hq
  have kab : parseConfRows (strConcat (mmd.results.map answer_block)) = [] :=
    parseConfRows_answer_blocks _ h7 h8
  have kavg : parseConfRows (ln (avgPreC ++
      (((mmd.consensus.map (fun c => pyFloatRepr1 c.average_confidence)).getD (pyNumRepr 0)) ++
      "%"))) = [] := by
    refine parseConfRows_ln_row_pre3 _ _ _ (by decide) (by decide) ?_ (by decide)
    refine noSep_optionMap_getD _ _ _ ?_ (pyNumRepr_chars 0).1
    exact fun c => (pyFloatRepr1_chars _).1
  have kagree : parseConfRows (ln (agreePreC ++
      (mmd.consensus.map Consensus.agreement_level).getD "UNKNOWN")) = [] := by
    refine parseConfRows_ln_row_pre2 _ _ (by decide) (by decide) ?_
    cases hcon : mmd.consensus with
    | none => exact (by decide : sepChar ∉ ("UNKNOWN").data)
    | some c => exact hagr c hcon
  have hbm : '\n' ∉ (best_result_of mmd.results).model.data := by
    by_cases hres : mmd.results = []
    · rw [hres]
      exact (by decide)
    · exact h7 _ (best_result_mem _ hres)
  have kdet : parseConfRows (ln (detHeadAC ++ ((best_result_of mmd.results).model ++
      detHeadBC))) = [] := by
    rw [parseConfRows_ln]
    have hd : (detHeadAC ++ ((best_result_of mmd.results).model ++ detHeadBC)).data =
        ['â', '”', 'Œ', 'â'] ++ ((['”', '€'] ++ (" DETAILED ANALYSIS (from ").data) ++
          ((best_result_of mmd.results).model.data ++ detHeadBC.data)) := by
      simp only [strData_append, List.append_assoc]
      rfl
    rw [hd]
    refine parsedRows_head4 _ _ (by decide) (by decide) ?_
    intro hx
    rcases List.mem_append.mp hx with hx | hx
    · exact absurd hx (by decide)
    rcases List.mem_append.mp hx with hx | hx
    · exact absurd hx (by decide)
    rcases List.mem_append.mp hx with hx | hx
    · exact hbm hx
    · exact absurd hx (by decide)
  have hba : ∀ a, (best_result_of mmd.results).audit = some a →
      NoSep a.what_might_be_wrong ∧ NoSep a.uncertainty_areas ∧
      NoSep a.alternative_interpretation ∧ NoSep a.risk_if_incorrect := by
    by_cases hres : mmd.results = []
    · rw [hres]
      intro a ha
      exact nomatch ha
    · exact h9 _ (best_result_mem _ hres)
  have kaf1 : parseConfRows (ln (audit_field (best_result_of mmd.results)
      Audit.what_might_be_wrong)) = [] := by
    rw [parseConfRows_ln]
    exact parsedRows_of_noSep _ (noSep_audit_field _ _ (fun a ha => (hba a ha).1))
  have kaf2 : parseConfRows (ln (audit_field (best_result_of mmd.results)
      Audit.uncertainty_areas)) = [] := by
    rw [parseConfRows_ln]
    exact parsedRows_of_noSep _ (noSep_audit_field _ _ (fun a ha => (hba a ha).2.1))
  have kaf3 : parseConfRows (ln (audit_field (best_result_of mmd.results)
      Audit.alternative_interpretation)) = [] := by
    rw [parseConfRows_ln]
    exact parsedRows_of_noSep _ (noSep_audit_field _ _ (fun a ha => (hba a ha).2.2.1))
  have kaf4 : parseConfRows (ln (audit_field (best_result_of mmd.results)
      Audit.risk_if_incorrect)) = [] := by
    rw [parseConfRows_ln]
    exact parsedRows_of_noSep _ (noSep_audit_field _ _ (fun a ha => (hba a ha).2.2.2))
  have kcl : parseConfRows (strConcat (((concerns_of mmd.results).take 3).enum.map
      concern_line)) = [] := by
    apply parseConfRows_concern_lines
    intro p hp
    obtain ⟨r, hr, hc⟩ := concerns_of_mem _ _
      (List.take_subset _ _ (List.snd_mem_of_mem_enum hp))
    rw [hc]
    exact noSep_result_concern r (fun a ha => (h9 r hr a ha).1)
  unfold format_multi_model_report
  simp only [strAppend_assoc]
  simp only [parseConfRows_append, nlTerm_append, nlTerm_ln, nlTerm_empty, nlTerm_ite,
    nlTerm_ite3,
    nlTerm_answer_blocks, nlTerm_conf_rows, nlTerm_concern_lines,
    nlTerm_chain_med, nlTerm_chain_leg, nlTerm_chain_recLow, nlTerm_chain_recMod,
    nlTerm_chain_recHigh, nlTerm_chain_spread, nlTerm_chain_concern,
    apply_ite parseConfRows, parseConfRows_conf_rows, parseConfRows_empty,
    pcrl_empty, pcrl_eq70, pcrl_yourQ, pcrl_respHdr, pcrl_analysisHdr, pcrl_consHead,
    pcrl_boxFoot, pcrl_tabHead, pcrl_aggHead, pcrl_recHead, pcrl_genBy,
    pcrl_medL1, pcrl_medL2, pcrl_medL3, pcrl_medL4, pcrl_medL5, pcrl_medL6,
    pcrl_legL1, pcrl_legL2, pcrl_legL3, pcrl_legL4, pcrl_legL5, pcrl_legL6,
    pcrl_wrong, pcrl_missing, pcrl_altI, pcrl_riskI,
    pcrl_ccHigh, pcrl_ccMod, pcrl_ccLow, pcrl_concernsHdr,
    pcrl_recLow1, pcrl_recLow2, pcrl_recLow3, pcrl_recLow4,
    pcrl_recMod1, pcrl_recMod2, pcrl_recMod3, pcrl_recMod4,
    pcrl_recHigh1, pcrl_recHigh2, pcrl_recHigh3, pcrl_recHigh4,
    pcrl_spread1, pcrl_spread2, pcrl_spread3,
    pcrl_warn, pcrl_range,
    khdr, kdom, krisk, kmod, kpow, kq, kab, kavg, kagree, kdet,
    kaf1, kaf2, kaf3, kaf4, kcl,
    ite_self, List.append_nil, List.nil_append]

theorem flatten_map_singleton (l : List ProviderResult)
    (h : ∀ r ∈ l, parseConfRows (conf_row r) = [(r.model, result_conf r)]) :
    (l.map (fun r => parseConfRows (conf_row r))).flatten =
      l.map (fun r => (r.model, result_conf r)) := by
  induction l with
  | nil => rfl
  | cons x xs ih =>
    rw [List.map_cons, List.flatten_cons, h x (List.mem_cons_self _ _), List.map_cons,
      ih (fun r hr => h r (List.mem_cons_of_mem _ hr))]
    rfl

theorem parseRow_four_cells (c1a c1b cell2 cell3 : List Char)
    (h1 : sepChar ∉ c1a) (h2 : sepChar ∉ c1b) (hb : sepChar ∉ cell2) (h3 : sepChar ∉ cell3) :
    parseRow (rowMark ++ (c1a ++ (sepMark ++ (c1b ++ (sepMark ++
      (cell2 ++ (sepMark ++ cell3))))))) = none := by
  rw [parseRow_rowMark, splitSep_sep_append _ _ h1, splitSep_sep_append _ _ h2,
    splitSep_sep_append _ _ hb, splitSep_of_noSep _ h3]

/-- C9: Round-trip of the per-provider confidence table.  Under the sanity
conditions that hold for the program's own data (provider names free of the
separator-critical character, without newlines and without trailing spaces,
confidences natural numbers, and the free-text report ingredients free of
the separator-critical character), parsing the rendered report's confidence
table recovers exactly the (provider, confidence) pairs of the renderer's
input, in order (src/app.py lines 378-386). -/
theorem confidence_table_round_trip (question : String) (mmd : MultiModelData)
    (di : DomainInfo)
    (hq : NoSep question)
    (hmu : ∀ m ∈ mmd.models_used, NoSep m)
    (hdom : NoSep di.domain)
    (hemo : '\n' ∉ di.emoji.data)
    (hrisk : '\n' ∉ di.risk.data)
    (hagr : ∀ c, mmd.consensus = some c → NoSep c.agreement_level)
    (h7 : ∀ r ∈ mmd.results, '\n' ∉ r.model.data)
    (h8 : ∀ r ∈ mmd.results, NoSep (r.answer.getD "No response"))
    (h9 : ∀ r ∈ mmd.results, ∀ a, r.audit = some a →
      NoSep a.what_might_be_wrong ∧ NoSep a.uncertainty_areas ∧
      NoSep a.alternative_interpretation ∧ NoSep a.risk_if_incorrect)
    (hrow : ∀ r ∈ mmd.results, NoSep r.model ∧
      dropTrailSpaces r.model.data = r.model.data ∧ ∃ n : ℕ, result_conf r = (n : ℚ)) :
    parseConfRows (format_multi_model_report question mmd di) =
      mmd.results.map (fun r => (r.model, result_conf r)) := by
  rw [parseConfRows_report question mmd di hq hmu hdom hemo hrisk hagr h7 h8 h9]
  apply flatten_map_singleton
  intro r hr
  obtain ⟨hm, hsp, n, hc⟩ := hrow r hr
  exact parseConfRows_conf_row r n hc hm (h7 r hr) hsp

/-- Witness for C9 at a concrete two-provider input: the rendered report's
confidence table parses back to exactly the two input pairs. -/
theorem confidence_table_round_trip_witness :
    parseConfRows (format_multi_model_report "Is it safe to eat?"
      ⟨["GPT-4", "Claude"],
        [⟨"GPT-4", some "Yes.", some ⟨95, "w", "u", "ai", "r"⟩, true, none⟩,
         ⟨"Claude", some "No.", some ⟨60, "x", "v", "", "s"⟩, true, none⟩],
        some ⟨155/2, 60, 95, 35, "MODERATE"⟩⟩
      ⟨"GENERAL", "LOW", "ğŸ“Š"⟩) = [("GPT-4", (95 : ℚ)), ("Claude", (60 : ℚ))] := by
  rw [confidence_table_round_trip "Is it safe to eat?"
      ⟨["GPT-4", "Claude"],
        [⟨"GPT-4", some "Yes.", some ⟨95, "w", "u", "ai", "r"⟩, true, none⟩,
         ⟨"Claude", some "No.", some ⟨60, "x", "v", "", "s"⟩, true, none⟩],
        some ⟨155/2, 60, 95, 35, "MODERATE"⟩⟩
      ⟨"GENERAL", "LOW", "ğŸ“Š"⟩
      (by exact (by decide : sepChar ∉ ("Is it safe to eat?").data))
      (by
        intro m hm
        rcases List.mem_cons.mp hm with rfl | hm
        · exact (by decide : sepChar ∉ ("GPT-4").data)
        rcases List.mem_cons.mp hm with rfl | hm
        · exact (by decide : sepChar ∉ ("Claude").data)
        · exact absurd hm (List.not_mem_nil m))
      (by exact (by decide : sepChar ∉ ("GENERAL").data))
      (by decide)
      (by decide)
      (by
        intro c hc
        injection hc with h
        subst h
        exact (by decide : sepChar ∉ ("MODERATE").data))
      (by
        intro r hr
        rcases List.mem_cons.mp hr with rfl | hr
        · exact (by decide)
        rcases List.mem_cons.mp hr with rfl | hr
        · exact (by decide)
        · exact absurd hr (List.not_mem_nil r))
      (by
        intro r hr
        rcases List.mem_cons.mp hr with rfl | hr
        · exact (by decide : sepChar ∉ (("Yes." : String)).data)
        rcases List.mem_cons.mp hr with rfl | hr
        · exact (by decide : sepChar ∉ (("No." : String)).data)
        · exact absurd hr (List.not_mem_nil r))
      (by
        intro r hr
        rcases List.mem_cons.mp hr with rfl | hr
        · intro a ha
          injection ha with h
          subst h
          exact ⟨(by decide : sepChar ∉ ("w").data), (by decide : sepChar ∉ ("u").data),
            (by decide : sepChar ∉ ("ai").data), (by decide : sepChar ∉ ("r").data)⟩
        rcases List.mem_cons.mp hr with rfl | hr
        · intro a ha
          injection ha with h
          subst h
          exact ⟨(by decide : sepChar ∉ ("x").data), (by decide : sepChar ∉ ("v").data),
            (by decide : sepChar ∉ ("").data), (by decide : sepChar ∉ ("s").data)⟩
        · exact absurd hr (List.not_mem_nil r))
      (by
        intro r hr
        rcases List.mem_cons.mp hr with rfl | hr
        · exact ⟨(by decide : sepChar ∉ ("GPT-4").data), by decide, 95, by decide⟩
        rcases List.mem_cons.mp hr with rfl | hr
        · exact ⟨(by decide : sepChar ∉ ("Claude").data), by decide, 60, by decide⟩
        · exact absurd hr (List.not_mem_nil r))]
  decide

/-- C9, counterexample to the unconditional claim: a provider whose name
contains the column-separator sequence ` │ ` (here `"A â”‚ B"` in the file's
encoding) renders a table row with four cells instead of three; the parser
rejects it, so the recovered pair list is empty and the round trip fails. -/
theorem confidence_table_round_trip_counterexample :
    parseConfRows (format_multi_model_report "What time is it now?"
      ⟨[], [⟨"A â”‚ B", some "ok", some ⟨50, "", "", "", ""⟩, true, none⟩],
        some ⟨50, 50, 50, 0, "HIGH"⟩⟩
      ⟨"GENERAL", "LOW", "ğŸ“Š"⟩) = [] ∧
    (MultiModelData.mk [] [⟨"A â”‚ B", some "ok", some ⟨50, "", "", "", ""⟩, true, none⟩]
        (some ⟨50, 50, 50, 0, "HIGH"⟩)).results.map (fun r => (r.model, result_conf r)) =
      [("A â”‚ B", (50 : ℚ))] := by
  have krow : parseConfRows
      (conf_row ⟨"A â”‚ B", some "ok", some ⟨50, "", "", "", ""⟩, true, none⟩) = [] := by
    show parseConfRows (ln (rowH ++ padRight "A â”‚ B" 12 ++ sepS ++
      (strRepeat barFullC (pyTrunc ((50 : ℚ) / 5)).toNat ++
        strRepeat barEmptyC (20 - pyTrunc ((50 : ℚ) / 5)).toNat) ++ sepS ++
      pyNumRepr (50 : ℚ) ++ "%")) = []
    obtain ⟨hb3, hb4⟩ := bar_chars (pyTrunc ((50 : ℚ) / 5)).toNat
      (20 - pyTrunc ((50 : ℚ) / 5)).toNat
    generalize hbar : strRepeat barFullC (pyTrunc ((50 : ℚ) / 5)).toNat ++
      strRepeat barEmptyC (20 - pyTrunc ((50 : ℚ) / 5)).toNat = bar at hb3 hb4 ⊢
    rw [parseConfRows_ln]
    have hd : (rowH ++ padRight "A â”‚ B" 12 ++ sepS ++ bar ++ sepS ++
        pyNumRepr (50 : ℚ) ++ "%").data =
        rowMark ++ (['A'] ++ (sepMark ++ (['B', ' ', ' ', ' ', ' ', ' '] ++ (sepMark ++
          (bar.data ++ (sepMark ++ ((pyNumRepr (50 : ℚ)).data ++ ['%']))))))) := by
      rw [show padRight "A â”‚ B" 12 = "A â”‚ B" ++ strRepeat " " 5 from rfl]
      simp only [strData_append, List.append_assoc]
      rw [strRepeat_space_data]
      rfl
    obtain ⟨hn3, hn4⟩ := pyNumRepr_chars (50 : ℚ)
    refine parsedRows_single_reject _ ?_ ?_
    · rw [hd]
      intro hx
      rcases List.mem_append.mp hx with hx | hx
      · exact absurd hx (by decide)
      rcases List.mem_append.mp hx with hx | hx
      · exact absurd hx (by decide)
      rcases List.mem_append.mp hx with hx | hx
      · exact absurd hx (by decide)
      rcases List.mem_append.mp hx with hx | hx
      · exact absurd hx (by decide)
      rcases List.mem_append.mp hx with hx | hx
      · exact absurd hx (by decide)
      rcases List.mem_append.mp hx with hx | hx
      · exact hb4 hx
      rcases List.mem_append.mp hx with hx | hx
      · exact absurd hx (by decide)
      rcases List.mem_append.mp hx with hx | hx
      · exact hn4 hx
      · exact absurd hx (by decide)
    · rw [hd]
      exact parseRow_four_cells _ _ _ _ (by decide) (by decide) hb3
        (fun hx => by
          rcases List.mem_append.mp hx with hx | hx
          · exact hn3 hx
          · exact absurd hx (by decide))
  constructor
  · rw [parseConfRows_report "What time is it now?"
        ⟨[], [⟨"A â”‚ B", some "ok", some ⟨50, "", "", "", ""⟩, true, none⟩],
          some ⟨50, 50, 50, 0, "HIGH"⟩⟩
        ⟨"GENERAL", "LOW", "ğŸ“Š"⟩
        (by exact (by decide : sepChar ∉ ("What time is it now?").data))
        (fun m hm => absurd hm (List.not_mem_nil m))
        (by exact (by decide : sepChar ∉ ("GENERAL").data))
        (by decide)
        (by decide)
        (by
          intro c hc
          injection hc with h
          subst h
          exact (by decide : sepChar ∉ ("HIGH").data))
        (by
          intro r hr
          rcases List.mem_cons.mp hr with rfl | hr
          · exact (by decide)
          · exact absurd hr (List.not_mem_nil r))
        (by
          intro r hr
          rcases List.mem_cons.mp hr with rfl | hr
          · exact (by decide : sepChar ∉ (("ok" : String)).data)
          · exact absurd hr (List.not_mem_nil r))
        (by
          intro r hr
          rcases List.mem_cons.mp hr with rfl | hr
          · intro a ha
            injection ha with h
            subst h
            exact ⟨(by decide : sepChar ∉ ("").data), (by decide : sepChar ∉ ("").data),
              (by decide : sepChar ∉ ("").data), (by decide : sepChar ∉ ("").data)⟩
          · exact absurd hr (List.not_mem_nil r))]
    rw [List.map_cons, List.map_nil, List.flatten_cons, krow, List.flatten_nil,
      List.append_nil]
  · decide

theorem containsSeq_append_right (p : List Char) :
    ∀ (a b : List Char), containsSeq p b = true → containsSeq p (a ++ b) = true := by
  intro a
  induction a with
  | nil => exact fun b h => h
  | cons c a' ih =>
    intro b h
    rw [List.cons_append]
    unfold containsSeq
    rw [ih b h, Bool.or_true]

theorem containsSeq_of_seqPre (p l : List Char) (h : seqPre p l = true) :
    containsSeq p l = true := by
  cases l with
  | nil =>
    cases p with
    | nil => rfl
    | cons c cs => exact absurd h (by simp [seqPre])
  | cons c cs =>
    unfold containsSeq
    rw [h, Bool.true_or]

theorem pyIn_append_right (sub u t : String) (h : pyIn sub t = true) :
    pyIn sub (u ++ t) = true := by
  unfold pyIn
  rw [strData_append]
  exact containsSeq_append_right _ _ _ h

theorem pyIn_first (sub s t : String) (hle : sub.data.length ≤ s.data.length)
    (h : seqPre sub.data s.data = true) : pyIn sub (s ++ t) = true := by
  unfold pyIn
  rw [strData_append]
  refine containsSeq_of_seqPre _ _ ?_
  rw [seqPre_append_of_le _ _ _ hle]
  exact h

theorem head_of_report (q : String) (mmd : MultiModelData) (di : DomainInfo) :
    (format_multi_model_report q mmd di).data.head? = some '\n' := by
  unfold format_multi_model_report
  simp only [strAppend_assoc]
  rw [strData_append]
  rfl

theorem pyNumRepr_zero : pyNumRepr (0 : ℚ) = "0" := by
  have h00 : natDigits 0 = ['0'] := by
    unfold natDigits
    rw [dif_pos (by omega)]
    rfl
  unfold pyNumRepr
  rw [if_pos (by decide)]
  unfold pyIntRepr
  rw [if_neg (by decide)]
  unfold natRepr
  rw [show (0 : ℚ).num.natAbs = 0 from rfl, h00]

/-- C1: refuted by the code — the all-failed fall-through bug.  When every
configured provider fails, `multi_model_audit` returns the dictionary
`{"error": "All models failed", "results": results}` (src/app.py line 279),
but the endpoint surfaces an error only when the dictionary has no
`results` key (line 505: `"error" in ... and "results" not in ...`), so the
all-failed case falls through to the renderer: the caller receives a full
consensus report whose average-confidence line reads `│ Average
Confidence: 0%` instead of an error report. -/
theorem all_failed_renders_zero_consensus (question : String)
    (results : List ProviderResult)
    (hq : 5 ≤ (pyStrip question).length) (hne : results ≠ [])
    (hf : ∀ r ∈ results, r.success = false) :
    audit_question question results =
      format_multi_model_report question ⟨[], results, none⟩ (detect_domain question) ∧
    pyIn (avgPreC ++ "0%") (audit_question question results) = true ∧
    ∀ e : String, audit_question question results ≠ errHeadC ++ e ++ errTailC := by
  have hmm : multi_model_audit results = .allFailed results := by
    unfold multi_model_audit
    rw [if_neg (fun hb => hne (List.isEmpty_iff.mp hb))]
    simp only
    rw [if_pos (List.isEmpty_iff.mpr (List.filter_eq_nil_iff.mpr
      (fun r hr => by rw [hf r hr]; exact Bool.false_ne_true)))]
  have hrep : audit_question question results =
      format_multi_model_report question ⟨[], results, none⟩ (detect_domain question) := by
    unfold audit_question
    rw [if_neg (by omega), hmm]
  refine ⟨hrep, ?_, ?_⟩
  · rw [hrep]
    unfold format_multi_model_report
    simp only [strAppend_assoc, Option.map_none', Option.getD_none]
    rw [pyNumRepr_zero]
    iterate 22 apply pyIn_append_right
    exact pyIn_first _ _ _ (by decide) (by decide)
  · intro e heq
    rw [hrep] at heq
    have h1 : (format_multi_model_report question ⟨[], results, none⟩
        (detect_domain question)).data.head? = some 'â' := by
      rw [heq, strData_append, strData_append]
      rfl
    rw [head_of_report] at h1
    exact absurd h1 (by decide)

/-- Witness for C1: a concrete request whose only provider failed; the
endpoint's answer is the rendered report, contains the zero average line,
and is not the error report. -/
theorem all_failed_renders_zero_consensus_witness :
    audit_question "What day comes after Monday?"
        [⟨"GPT-4", none, none, false, some "API error"⟩] =
      format_multi_model_report "What day comes after Monday?"
        ⟨[], [⟨"GPT-4", none, none, false, some "API error"⟩], none⟩
        (detect_domain "What day comes after Monday?") ∧
    pyIn (avgPreC ++ "0%")
      (audit_question "What day comes after Monday?"
        [⟨"GPT-4", none, none, false, some "API error"⟩]) = true ∧
    ∀ e : String,
      audit_question "What day comes after Monday?"
        [⟨"GPT-4", none, none, false, some "API error"⟩] ≠ errHeadC ++ e ++ errTailC :=
  all_failed_renders_zero_consensus "What day comes after Monday?"
    [⟨"GPT-4", none, none, false, some "API error"⟩] (by decide) (by decide)
    (by
      intro r hr
      rcases List.mem_cons.mp hr with rfl | hr
      · rfl
      · exact absurd hr (List.not_mem_nil r))

theorem pyIn_hdr_line (emoji rest : String) :
    pyIn hdrMidC (ln ("     " ++ (emoji ++ (hdrMidC ++ emoji))) ++ rest) = true := by
  unfold pyIn
  have hd : (ln ("     " ++ (emoji ++ (hdrMidC ++ emoji))) ++ rest).data =
      (("     ").data ++ emoji.data) ++ (hdrMidC.data ++ (emoji.data ++ (['\n'] ++ rest.data))) := by
    simp only [strData_append, lnData, List.append_assoc]
  rw [hd]
  exact containsSeq_middle _ _ _

/-- C8 (amended): on the original claim's scope — inputs with at least one
provider result — the renderer is a pure function that always renders a
report containing the fixed header (on an empty result list Python's
`max(results, key=...)` at src/app.py line 406 raises `ValueError` instead,
so the scope hypothesis is essential); but the claim's labelling of failed
providers is refuted: when at least one provider succeeds,
`multi_model_audit` hands the renderer only the successful results
(`"results": successful_results`, src/app.py line 296), so failed providers
are omitted from the report input rather than labelled. -/
theorem renderer_total_failures_omitted :
    (∀ (q : String) (mmd : MultiModelData) (di : DomainInfo), mmd.results ≠ [] →
      pyIn hdrMidC (format_multi_model_report q mmd di) = true) ∧
    ∀ results : List ProviderResult, results.filter (fun r => r.success) ≠ [] →
      ∃ c, multi_model_audit results =
        .ok ((results.filter (fun r => r.success)).map (fun r => r.model))
          (results.filter (fun r => r.success)) c := by
  constructor
  · intro q mmd di _
    unfold format_multi_model_report
    simp only [strAppend_assoc]
    iterate 2 apply pyIn_append_right
    exact pyIn_hdr_line di.emoji _
  · intro results hf
    have hne : ¬ results.isEmpty = true := by
      intro hb
      rw [List.isEmpty_iff.mp hb] at hf
      exact hf rfl
    refine ⟨⟨pyRound1 ((((results.filter (fun r => r.success)).map result_conf).sum) /
        ((((results.filter (fun r => r.success)).map result_conf).length : ℚ))),
      listMin ((results.filter (fun r => r.success)).map result_conf),
      listMax ((results.filter (fun r => r.success)).map result_conf),
      listMax ((results.filter (fun r => r.success)).map result_conf) -
        listMin ((results.filter (fun r => r.success)).map result_conf),
      agreement_level_of
        (listMax ((results.filter (fun r => r.success)).map result_conf) -
          listMin ((results.filter (fun r => r.success)).map result_conf))⟩, ?_⟩
    unfold multi_model_audit
    rw [if_neg hne]
    simp only
    rw [if_neg (fun hb => hf (List.isEmpty_iff.mp hb))]

/-- Witness for C8 at concrete inputs: with a one-element (non-empty)
result list the header appears in the rendered report, and with one success
and one failure the reducer returns the success-only dictionary. -/
theorem renderer_total_failures_omitted_witness :
    pyIn hdrMidC (format_multi_model_report "Hi there friend"
      ⟨["GPT-4"], [⟨"GPT-4", some "All good", some ⟨80, "", "", "", ""⟩, true, none⟩],
        some ⟨80, 80, 80, 0, "HIGH"⟩⟩ ⟨"GENERAL", "LOW", "ğŸ“Š"⟩) = true ∧
    ∃ c, multi_model_audit
        [⟨"GPT-4", some "All good", some ⟨80, "", "", "", ""⟩, true, none⟩,
         ⟨"Claude", none, none, false, some "overloaded"⟩] =
      .ok ["GPT-4"] [⟨"GPT-4", some "All good", some ⟨80, "", "", "", ""⟩, true, none⟩] c := by
  constructor
  · exact renderer_total_failures_omitted.1 "Hi there friend"
      ⟨["GPT-4"], [⟨"GPT-4", some "All good", some ⟨80, "", "", "", ""⟩, true, none⟩],
        some ⟨80, 80, 80, 0, "HIGH"⟩⟩ ⟨"GENERAL", "LOW", "ğŸ“Š"⟩ (by decide)
  · obtain ⟨c, hc⟩ := renderer_total_failures_omitted.2
      [⟨"GPT-4", some "All good", some ⟨80, "", "", "", ""⟩, true, none⟩,
       ⟨"Claude", none, none, false, some "overloaded"⟩] (by decide)
    exact ⟨c, hc⟩

/-- C8, counterexample to the original labelling claim: with one successful
and one failed provider, the success dictionary the endpoint renders
carries only the successful provider — the failed provider is omitted from
the renderer's results and model list, not labelled distinctly. -/
theorem failed_provider_omitted_counterexample :
    multi_model_audit
      [⟨"GPT-4", some "It is fine", some ⟨80, "minor", "", "", "low"⟩, true, none⟩,
       ⟨"Claude", none, none, false, some "connection reset"⟩] =
      .ok ["GPT-4"] [⟨"GPT-4", some "It is fine", some ⟨80, "minor", "", "", "low"⟩, true, none⟩]
        ⟨80, 80, 80, 0, "HIGH"⟩ ∧
    (⟨"Claude", none, none, false, some "connection reset"⟩ : ProviderResult) ∉
      [⟨"GPT-4", some "It is fine", some ⟨80, "minor", "", "", "low"⟩, true, none⟩] ∧
    "Claude" ∉
      (([⟨"GPT-4", some "It is fine", some ⟨80, "minor", "", "", "low"⟩, true, none⟩] :
          List ProviderResult).map (fun r => r.model)) := by
  refine ⟨by decide, by decide, by decide⟩
